import Mathlib

/-!
Verification of the OpenDevin error-routing subsystem
(`openhands/integrations/devin_integration.py`, `error_router.py`,
`intelligent_error_analyzer.py`).

The Python code is shallowly embedded: dictionaries become association
lists over `String` keys, wall-clock instants become natural-number
seconds (both `time.time()` and `datetime.now()` are modelled by the same
clock parameter), HTTP calls become explicit outcome parameters, and the
SHA-256 digest used for fingerprints is implemented directly.
-/

namespace OpenDevin

/-! ## Association-list primitives (model of Python `dict`) -/

/-- Python `d.get(k)` / `d[k]`: first binding of `k`. -/
def alookup {α : Type} (k : String) : List (String × α) → Option α
  | [] => none
  | (a, b) :: t => if a = k then some b else alookup k t

/-- Python `d[k] = v`: replace the first binding of `k`, or append-as-front. -/
def upsert {α : Type} (k : String) (v : α) : List (String × α) → List (String × α)
  | [] => [(k, v)]
  | (a, b) :: t => if a = k then (k, v) :: t else (a, b) :: upsert k v t

/-- Python `del d[k]` (no-op when absent, matching the guarded deletes in the source). -/
def eraseKey {α : Type} (k : String) : List (String × α) → List (String × α)
  | [] => []
  | (a, b) :: t => if a = k then t else (a, b) :: eraseKey k t

/-- Python `k in d`. -/
def amember {α : Type} (k : String) (l : List (String × α)) : Bool :=
  l.any (fun p => p.1 = k)

/-- The keys of an association list, for the dict discipline (no duplicate keys). -/
def keysOf {α : Type} (l : List (String × α)) : List String := l.map Prod.fst

/-! ## SHA-256 (model of Python `hashlib.sha256(...).hexdigest()`) -/

/-- 32-bit truncation. -/
def m32 (x : Nat) : Nat := x % 4294967296

/-- 32-bit right rotation. -/
def rotr32 (n x : Nat) : Nat := m32 ((x >>> n) ||| (x <<< (32 - n)))

/-- SHA-256 round constants (FIPS 180-4, written in decimal). -/
def sha256K : List Nat :=
  [1116352408, 1899447441, 3049323471, 3921009573, 961987163,
   1508970993, 2453635748, 2870763221, 3624381080, 310598401,
   607225278, 1426881987, 1925078388, 2162078206, 2614888103,
   3248222580, 3835390401, 4022224774, 264347078, 604807628,
   770255983, 1249150122, 1555081692, 1996064986, 2554220882,
   2821834349, 2952996808, 3210313671, 3336571891, 3584528711,
   113926993, 338241895, 666307205, 773529912, 1294757372,
   1396182291, 1695183700, 1986661051, 2177026350, 2456956037,
   2730485921, 2820302411, 3259730800, 3345764771, 3516065817,
   3600352804, 4094571909, 275423344, 430227734, 506948616,
   659060556, 883997877, 958139571, 1322822218, 1537002063,
   1747873779, 1955562222, 2024104815, 2227730452, 2361852424,
   2428436474, 2756734187, 3204031479, 3329325298]

/-- Initial SHA-256 state (FIPS 180-4, written in decimal). -/
def sha256H0 : List Nat :=
  [1779033703, 3144134277, 1013904242, 2773480762,
   1359893119, 2600822924, 528734635, 1541459225]

/-- Message-schedule extension: extend the 16 block words to 64. -/
def sha256Extend (w : List Nat) : Nat → List Nat
  | 0 => w
  | n + 1 =>
    let w' := sha256Extend w n
    let i := w'.length
    let g j := w'.getD j 0
    let s0 := (rotr32 7 (g (i - 15))) ^^^ (rotr32 18 (g (i - 15))) ^^^ ((g (i - 15)) >>> 3)
    let s1 := (rotr32 17 (g (i - 2))) ^^^ (rotr32 19 (g (i - 2))) ^^^ ((g (i - 2)) >>> 10)
    w' ++ [m32 (g (i - 16) + s0 + g (i - 7) + s1)]

/-- One compression round. -/
def sha256Round (kw : Nat × Nat) (st : List Nat) : List Nat :=
  let a := st.getD 0 0
  let b := st.getD 1 0
  let c := st.getD 2 0
  let d := st.getD 3 0
  let e := st.getD 4 0
  let f := st.getD 5 0
  let g := st.getD 6 0
  let h := st.getD 7 0
  let s1 := (rotr32 6 e) ^^^ (rotr32 11 e) ^^^ (rotr32 25 e)
  let ch := (e &&& f) ^^^ ((4294967295 - m32 e) &&& g)
  let t1 := m32 (h + s1 + ch + kw.1 + kw.2)
  let s0 := (rotr32 2 a) ^^^ (rotr32 13 a) ^^^ (rotr32 22 a)
  let mj := (a &&& b) ^^^ (a &&& c) ^^^ (b &&& c)
  let t2 := m32 (s0 + mj)
  [m32 (t1 + t2), a, b, c, m32 (d + t1), e, f, g]

/-- Compress one 64-byte block into the running state. -/
def sha256Block (st : List Nat) (block : List Nat) : List Nat :=
  let words := (List.range 16).map fun i =>
    (block.getD (4 * i) 0) <<< 24 ||| (block.getD (4 * i + 1) 0) <<< 16 |||
    (block.getD (4 * i + 2) 0) <<< 8 ||| (block.getD (4 * i + 3) 0)
  let w := sha256Extend words 48
  let st' := (sha256K.zip w).foldl (fun s kw => sha256Round kw s) st
  (st.zip st').map fun ab => m32 (ab.1 + ab.2)

/-- Split a byte list into 64-byte chunks (fuel-based so that the kernel can reduce it;
`l.length` steps always suffice because every step consumes 64 bytes). -/
def chunks64Aux : Nat → List Nat → List (List Nat)
  | 0, _ => []
  | _, [] => []
  | n + 1, a :: t => ((a :: t).take 64) :: chunks64Aux n (t.drop 63)

/-- Split a byte list into 64-byte chunks. -/
def chunks64 (l : List Nat) : List (List Nat) :=
  chunks64Aux (l.length + 1) l

/-- SHA-256 padding: append `0x80`, zero padding, and the 64-bit bit length. -/
def sha256Pad (msg : List Nat) : List Nat :=
  let len := msg.length
  let padLen := (119 - len % 64) % 64
  let bitLen := 8 * len
  msg ++ [0x80] ++ List.replicate padLen 0 ++
    (List.range 8).map fun i => (bitLen >>> (8 * (7 - i))) % 256

/-- SHA-256 of a byte sequence, as the list of eight 32-bit state words. -/
def sha256Words (msg : List Nat) : List Nat :=
  (chunks64 (sha256Pad msg)).foldl sha256Block sha256H0

/-- Lowercase hex digit. -/
def hexDigit (n : Nat) : Char :=
  if n < 10 then Char.ofNat (48 + n) else Char.ofNat (87 + n)

/-- A 32-bit word as 8 lowercase hex digits. -/
def wordHex (x : Nat) : List Char :=
  (List.range 8).map fun i => hexDigit ((x >>> (4 * (7 - i))) % 16)

/-- UTF-8 encoding of one character (model of Python `str.encode()`). -/
def utf8Char (c : Char) : List Nat :=
  let n := c.toNat
  if n < 128 then [n]
  else if n < 2048 then [192 ||| (n >>> 6), 128 ||| (n &&& 63)]
  else if n < 65536 then
    [224 ||| (n >>> 12), 128 ||| ((n >>> 6) &&& 63), 128 ||| (n &&& 63)]
  else
    [240 ||| (n >>> 18), 128 ||| ((n >>> 12) &&& 63),
     128 ||| ((n >>> 6) &&& 63), 128 ||| (n &&& 63)]

/-- `hashlib.sha256(s.encode()).hexdigest()`. -/
def sha256hex (s : String) : String :=
  String.mk ((sha256Words (s.data.flatMap utf8Char)).flatMap wordHex)

/-! ## A small pattern engine (model of the `re.sub` calls in `_sanitize_string`)

Each regular expression used by the sanitizer is a plain sequence of
literals, optional literals, greedy character-class repetitions, and word
boundaries, so it is embedded as a list of such atoms with the standard
leftmost, greedy, backtracking semantics of `re.sub`. -/

/-- One regex atom. -/
inductive RAtom where
  | lit (cs : List Char) (ci : Bool)
  | opt (cs : List Char) (ci : Bool)
  | cls (p : Char → Bool) (lo : Nat) (hi : Option Nat)
  | wb

/-- Case-sensitive or case-insensitive character comparison. -/
def chEq (ci : Bool) (a b : Char) : Bool :=
  if ci then a.toLower = b.toLower else a = b

/-- Strip a literal from the front of the input, if it is there. -/
def stripLit (ci : Bool) : List Char → List Char → Option (List Char)
  | [], s => some s
  | _ :: _, [] => none
  | c :: cs, x :: s => if chEq ci c x then stripLit ci cs s else none

/-- Length of the run of leading characters satisfying `p`. -/
def runLen (p : Char → Bool) : List Char → Nat
  | [] => 0
  | c :: t => if p c then runLen p t + 1 else 0

/-- Python's `\w` (ASCII fragment, which is all the sanitized strings use). -/
def isWordChar (c : Char) : Bool := c.isAlpha || c.isDigit || c = '_'

/-- Word-ness of an optional character; the ends of the string count as non-word. -/
def isWordOpt : Option Char → Bool
  | none => false
  | some c => isWordChar c

/-- Greedy backtracking over the repetition count of a class atom:
try `k` consumed characters first, then down to `lo`. -/
def tryCounts (f : Option Char → List Char → Option Nat) (prev : Option Char)
    (s : List Char) (lo : Nat) : Nat → Option Nat
  | 0 =>
    if lo = 0 then (f prev s).map (· + 0) else none
  | k + 1 =>
    if k + 1 < lo then none
    else
      match (f (some (s.getD k ' ')) (s.drop (k + 1))).map (· + (k + 1)) with
      | some n => some n
      | none => tryCounts f prev s lo k

/-- The last character of a consumed literal, for later `\b` tests. -/
def lastCharOf (cs : List Char) (prev : Option Char) : Option Char :=
  match cs.getLast? with
  | some c => some c
  | none => prev

/-- Match a sequence of atoms at the head of `s` (with `prev` the character
just before the current position), returning how many characters a
(leftmost-greedy) match consumes. -/
def matchAtoms : List RAtom → Option Char → List Char → Option Nat
  | [], _, _ => some 0
  | .wb :: rest, prev, s =>
    if isWordOpt prev != isWordOpt s.head? then matchAtoms rest prev s else none
  | .lit cs ci :: rest, prev, s =>
    match stripLit ci cs s with
    | some s' => (matchAtoms rest (lastCharOf cs prev) s').map (· + cs.length)
    | none => none
  | .opt cs ci :: rest, prev, s =>
    match stripLit ci cs s with
    | some s' =>
      match (matchAtoms rest (lastCharOf cs prev) s').map (· + cs.length) with
      | some n => some n
      | none => matchAtoms rest prev s
    | none => matchAtoms rest prev s
  | .cls p lo hi :: rest, prev, s =>
    let run := runLen p s
    let k0 := match hi with
      | some h => min run h
      | none => run
    tryCounts (matchAtoms rest) prev s lo k0

/-- Replace every (leftmost, non-overlapping) match, scanning left to right.
As in `re.sub`, match decisions (including `\b`) are taken on the input
string, and replacements are assembled separately. -/
def subAt (pat : List RAtom) (rep : List Char) : Nat → Option Char → List Char → List Char
  | 0, _, s => s
  | _ + 1, _, [] => []
  | fuel + 1, prev, c :: t =>
    match matchAtoms pat prev (c :: t) with
    | some (n + 1) =>
      rep ++ subAt pat rep fuel (some ((c :: t).getD n c)) ((c :: t).drop (n + 1))
    | _ => c :: subAt pat rep fuel (some c) t

/-- `re.sub(pattern, replacement, s)`. -/
def reSub (pat : List RAtom) (rep : String) (s : String) : String :=
  String.mk (subAt pat rep.data (s.data.length + 1) none s.data)

/-! ### The sanitizer's character classes -/

def keyChar (c : Char) : Bool := c.isAlpha || c.isDigit || c = '-' || c = '_'

def hexChar (c : Char) : Bool := c.isDigit || ('a' ≤ c.toLower && c.toLower ≤ 'f')

def emailLocalChar (c : Char) : Bool :=
  c.isAlpha || c.isDigit || c = '.' || c = '_' || c = '%' || c = '+' || c = '-'

def emailDomainChar (c : Char) : Bool := c.isAlpha || c.isDigit || c = '.' || c = '-'

def bearerTokChar (c : Char) : Bool := c.isAlpha || c.isDigit || c = '-' || c = '_' || c = '.'

def nonSpaceChar (c : Char) : Bool := !c.isWhitespace

/-! ### The ordered battery of `_sanitize_string` -/

/-- `sk-ant-` followed by at least one key character. -/
def patAnthropic : List RAtom := [.lit "sk-ant-".data false, .cls keyChar 1 none]

/-- `sk-` followed by at least 20 key characters. -/
def patOpenai : List RAtom := [.lit "sk-".data false, .cls keyChar 20 none]

/-- `pckey_` followed by at least one key character. -/
def patPinecone : List RAtom := [.lit "pckey_".data false, .cls keyChar 1 none]

/-- `pa-` followed by at least one key character. -/
def patVoyage : List RAtom := [.lit "pa-".data false, .cls keyChar 1 none]

/-- Canonical 8-4-4-4-12 hex identifier, case-insensitive. -/
def patUuid : List RAtom :=
  [.cls hexChar 8 (some 8), .lit "-".data false, .cls hexChar 4 (some 4),
   .lit "-".data false, .cls hexChar 4 (some 4), .lit "-".data false,
   .cls hexChar 4 (some 4), .lit "-".data false, .cls hexChar 12 (some 12)]

/-- Email syntax: local part, `@`, dotted domain, alphabetic TLD of length at least 2. -/
def patEmail : List RAtom :=
  [.cls emailLocalChar 1 none, .lit "@".data false, .cls emailDomainChar 1 none,
   .lit ".".data false, .cls Char.isAlpha 2 none]

/-- Three-segment `eyJ…`-dotted token. -/
def patJwt : List RAtom :=
  [.lit "eyJ".data false, .cls keyChar 1 none, .lit ".".data false,
   .lit "eyJ".data false, .cls keyChar 1 none, .lit ".".data false, .cls keyChar 1 none]

/-- Case-insensitive `Bearer` plus whitespace plus a token. -/
def patBearer : List RAtom :=
  [.lit "Bearer".data true, .cls Char.isWhitespace 1 none, .cls bearerTokChar 1 none]

/-- `postgres://…` or `postgresql://…`, case-insensitive, up to the next whitespace. -/
def patPostgres : List RAtom :=
  [.lit "postgres".data true, .opt "ql".data true, .lit "://".data false,
   .cls nonSpaceChar 1 none]

/-- Dotted-quad IPv4 with word boundaries, each group 1 to 3 digits. -/
def patIp : List RAtom :=
  [.wb, .cls Char.isDigit 1 (some 3), .lit ".".data false, .cls Char.isDigit 1 (some 3),
   .lit ".".data false, .cls Char.isDigit 1 (some 3), .lit ".".data false,
   .cls Char.isDigit 1 (some 3), .wb]

/-- `DevinIntegrationService._sanitize_string`: the fixed, ordered battery of redactions. -/
def sanitize_string (s : String) : String :=
  let s := reSub patAnthropic "[ANTHROPIC_KEY]" s
  let s := reSub patOpenai "[OPENAI_KEY]" s
  let s := reSub patPinecone "[PINECONE_KEY]" s
  let s := reSub patVoyage "[VOYAGE_KEY]" s
  let s := reSub patUuid "[UUID]" s
  let s := reSub patEmail "[EMAIL]" s
  let s := reSub patJwt "[JWT_TOKEN]" s
  let s := reSub patBearer "Bearer [TOKEN]" s
  let s := reSub patPostgres "[DATABASE_URL]" s
  reSub patIp "[IP_ADDRESS]" s

/-- `/[^\s]*/OpenDevin/` collapses to the project-relative prefix. -/
def patProjPath : List RAtom :=
  [.lit "/".data false, .cls nonSpaceChar 0 none, .lit "/OpenDevin/".data false]

/-- `/home/<user>/` collapses to `~/`. -/
def patHomePath : List RAtom :=
  [.lit "/home/".data false, .cls (fun c => !c.isWhitespace && c ≠ '/') 1 none,
   .lit "/".data false]

/-- `DevinIntegrationService._sanitize_stack_trace`: line-by-line sanitization
plus path collapsing. -/
def sanitize_stack_trace (stack_trace : String) : String :=
  let lines := stack_trace.splitOn "\n"
  let sanitized_lines := lines.map fun line =>
    let s := sanitize_string line
    let s := reSub patProjPath "OpenDevin/" s
    reSub patHomePath "~/" s
  String.intercalate "\n" sanitized_lines

/-! ## JSON-like values (model of Python `Any` in context maps and parsed JSON) -/

/-- A JSON-like value: the shape of Python context maps and of `json.loads` output. -/
inductive JValue where
  | null
  | bool (b : Bool)
  | num (q : Rat)
  | str (s : String)
  | arr (xs : List JValue)
  | obj (fields : List (String × JValue))

/-- Python truthiness of a JSON-like value. -/
def jTruthy : JValue → Bool
  | .null => false
  | .bool b => b
  | .num q => q ≠ 0
  | .str s => s ≠ ""
  | .arr xs => !xs.isEmpty
  | .obj fs => !fs.isEmpty

/-- Substring test on lowered strings (Python `needle in haystack`). -/
def listStarts : List Char → List Char → Bool
  | [], _ => true
  | _ :: _, [] => false
  | a :: n, b :: h => a = b && listStarts n h

/-- Python `needle in haystack` over characters. -/
def containsList (n : List Char) : List Char → Bool
  | [] => n.isEmpty
  | c :: t => listStarts n (c :: t) || containsList n t

/-- Lowercase a string (Python `str.lower`, ASCII fragment). -/
def lowerStr (s : String) : String := String.mk (s.data.map Char.toLower)

/-- The sensitive-field fragments of `_sanitize_context`. -/
def sensitive_fields : List String :=
  ["password", "secret", "token", "api_key", "apiKey",
   "authorization", "cookie", "session", "user_id", "userId",
   "email", "phone", "ssn", "credit_card", "creditCard"]

/-- `any(field.lower() in key.lower() for field in sensitive_fields)`. -/
def isSensitiveKey (key : String) : Bool :=
  sensitive_fields.any fun f => containsList (lowerStr f).data (lowerStr key).data

mutual

/-- `DevinIntegrationService._sanitize_context`: redact sensitive keys wholesale,
sanitize string values, recurse into maps, map over lists. -/
def sanitize_context : List (String × JValue) → List (String × JValue)
  | [] => []
  | (key, value) :: rest =>
    (key, if isSensitiveKey key then .str "[REDACTED]" else sanitizeCtxValue value) ::
      sanitize_context rest

/-- A dictionary value inside `_sanitize_context`. -/
def sanitizeCtxValue : JValue → JValue
  | .str s => .str (sanitize_string s)
  | .obj fs => .obj (sanitize_context fs)
  | .arr xs => .arr (sanitizeCtxElems xs)
  | v => v

/-- A list element inside `_sanitize_context`: strings are sanitized, dicts recursed,
everything else (including nested lists) passes through unchanged. -/
def sanitizeCtxElems : List JValue → List JValue
  | [] => []
  | .str s :: t => .str (sanitize_string s) :: sanitizeCtxElems t
  | .obj fs :: t => .obj (sanitize_context fs) :: sanitizeCtxElems t
  | x :: t => x :: sanitizeCtxElems t

end

mutual

/-- Display-level stand-in for `json.dumps`; no theorem depends on its exact output. -/
def jdumpVal : JValue → String
  | .null => "null"
  | .bool b => if b then "true" else "false"
  | .num q => toString q
  | .str s => "\x22" ++ s ++ "\x22"
  | .arr xs => "[" ++ jdumpList xs ++ "]"
  | .obj fs => "\x7b" ++ jdumpObj fs ++ "\x7d"

/-- Render a JSON array body. -/
def jdumpList : List JValue → String
  | [] => ""
  | [x] => jdumpVal x
  | x :: t => jdumpVal x ++ ", " ++ jdumpList t

/-- Render a JSON object body. -/
def jdumpObj : List (String × JValue) → String
  | [] => ""
  | [(k, v)] => "\x22" ++ k ++ "\x22: " ++ jdumpVal v
  | (k, v) :: t => "\x22" ++ k ++ "\x22: " ++ jdumpVal v ++ ", " ++ jdumpObj t

end

/-! ## Data model of `devin_integration.py` -/

/-- `ErrorContext`. -/
structure ErrorContext where
  category : String
  event : String
  message : String
  stack_trace : Option String := none
  code_location : Option String := none
  context : Option (List (String × JValue)) := none
  severity : String := "ERROR"

/-- `SanitizedError`. -/
structure SanitizedError where
  category : String
  event : String
  message : String
  stack_trace : Option String := none
  code_location : Option String := none
  context : Option (List (String × JValue)) := none

/-- `ReportResult` (times as natural-number seconds). -/
structure ReportResult where
  success : Bool
  notification_id : Option String := none
  devin_session_id : Option String := none
  devin_session_url : Option String := none
  error : Option String := none
  skipped_reason : Option String := none
  in_cooldown : Bool := false
  cooldown_ends_at : Option Nat := none
  has_historical_context : Bool := false
deriving DecidableEq, Repr

/-- `HistoricalAttempt`. -/
structure HistoricalAttempt where
  session_id : String
  session_url : String
  pr_url : Option String
  status : String
  created_at : Nat
  resolved_at : Option Nat
  resolution_notes : Option String
deriving DecidableEq, Repr

/-- `ErrorHistory`. -/
structure ErrorHistory where
  has_history : Bool
  previous_attempts : List HistoricalAttempt := []
  total_occurrences : Nat := 0
  first_seen : Option Nat := none
deriving DecidableEq, Repr

/-- An entry of `_error_history` (the per-attempt dict built by `_record_attempt`). -/
structure StoredAttempt where
  session_id : String
  session_url : String
  pr_url : Option String
  status : String
  created_at : Nat
  resolved_at : Option Nat
  resolution_notes : Option String
  occurrence_count : Nat
deriving DecidableEq, Repr

/-- An entry of `_resolved_errors` (the dict written by `mark_pr_merged`). -/
structure CooldownRecord where
  resolved_at : Nat
  pr_url : String
  session_id : String
  notes : Option String
deriving DecidableEq, Repr

/-- The mutable state of `DevinIntegrationService`
(`datetime.now()` and `time.time()` are modelled by one clock). -/
structure ServiceState where
  request_counts : List (String × Nat)
  last_request_reset : Nat
  recent_error_hashes : List (String × Nat)
  resolved_errors : List (String × CooldownRecord)
  error_history : List (String × List StoredAttempt)
  active_sessions : List (String × String)
deriving DecidableEq, Repr

/-- `MAX_REQUESTS_PER_HOUR`. -/
def MAX_REQUESTS_PER_HOUR : Nat := 10

/-- `DEDUPLICATION_WINDOW_SECONDS`. -/
def DEDUPLICATION_WINDOW_SECONDS : Nat := 3600

/-- `PR_MERGE_COOLDOWN_SECONDS` (5 minutes). -/
def PR_MERGE_COOLDOWN_SECONDS : Nat := 300

/-- `__init__`, constructed at clock instant `t0`. -/
def initialState (t0 : Nat) : ServiceState :=
  { request_counts := [], last_request_reset := t0, recent_error_hashes := [],
    resolved_errors := [], error_history := [], active_sessions := [] }

/-- The joined string hashed by `_generate_error_hash`. -/
def hashInputOf (error : ErrorContext) : String :=
  error.category ++ ":" ++ error.event ++ ":" ++ error.message ++ ":" ++
    error.code_location.getD ""

/-- `DevinIntegrationService._generate_error_hash`. -/
def generate_error_hash (error : ErrorContext) : String :=
  sha256hex (hashInputOf error)

/-- `DevinIntegrationService._sanitize_error`. -/
def sanitize_error (error : ErrorContext) : SanitizedError :=
  { category := error.category
    event := error.event
    message := sanitize_string error.message
    stack_trace := error.stack_trace.map sanitize_stack_trace
    code_location := error.code_location
    context := error.context.map sanitize_context }

/-- `DevinIntegrationService._check_rate_limit`.  `now - last_reset > 3600` is
written additively so that natural subtraction cannot diverge from Python. -/
def check_rate_limit (now : Nat) (s : ServiceState) : Bool × ServiceState :=
  let counts := if s.last_request_reset + 3600 < now then [] else s.request_counts
  let last_reset := if s.last_request_reset + 3600 < now then now else s.last_request_reset
  let current_hour := toString (now / 3600)
  let count := (alookup current_hour counts).getD 0
  if MAX_REQUESTS_PER_HOUR ≤ count then
    (false, { s with request_counts := counts, last_request_reset := last_reset })
  else
    (true, { s with request_counts := upsert current_hour (count + 1) counts,
                    last_request_reset := last_reset })

/-- `DevinIntegrationService._check_duplicate`.  The pruned map is persisted even
when a duplicate is found; a found hash is not refreshed. -/
def check_duplicate (error_hash : String) (now : Nat) (s : ServiceState) :
    Bool × ServiceState :=
  let pruned := s.recent_error_hashes.filter fun p =>
    now < p.2 + DEDUPLICATION_WINDOW_SECONDS
  if amember error_hash pruned then
    (true, { s with recent_error_hashes := pruned })
  else
    (false, { s with recent_error_hashes := upsert error_hash now pruned })

/-- `DevinIntegrationService._check_pr_merge_cooldown`
(a stored `resolved_at` is always truthy in Python, so it is always read). -/
def check_pr_merge_cooldown (error_hash : String) (now : Nat) (s : ServiceState) :
    Bool × Option Nat × Option String :=
  match alookup error_hash s.resolved_errors with
  | none => (false, none, none)
  | some resolved =>
    let cooldown_ends_at := resolved.resolved_at + PR_MERGE_COOLDOWN_SECONDS
    if now < cooldown_ends_at then (true, some cooldown_ends_at, some resolved.pr_url)
    else (false, none, none)

/-- `DevinIntegrationService._check_active_session`. -/
def check_active_session (error_hash : String) (s : ServiceState) : Option String :=
  alookup error_hash s.active_sessions

/-- Stored attempt rendered as a `HistoricalAttempt`. -/
def toHistorical (a : StoredAttempt) : HistoricalAttempt :=
  { session_id := a.session_id, session_url := a.session_url, pr_url := a.pr_url,
    status := a.status, created_at := a.created_at, resolved_at := a.resolved_at,
    resolution_notes := a.resolution_notes }

/-- `DevinIntegrationService._get_historical_context`. -/
def get_historical_context (error_hash : String) (s : ServiceState) : ErrorHistory :=
  match alookup error_hash s.error_history with
  | none => { has_history := false }
  | some attempts =>
    if attempts.isEmpty then { has_history := false }
    else
      { has_history := true
        previous_attempts := attempts.map toHistorical
        total_occurrences := (attempts.map (·.occurrence_count)).sum
        first_seen := attempts.foldl
          (fun acc a => match acc with
            | none => some a.created_at
            | some m => some (min m a.created_at)) none }

/-- Display stand-in for `datetime.strftime(..., "%Y-%m-%d")`. -/
def dateStr (t : Nat) : String := toString t

/-- Display stand-in for `datetime.isoformat()`. -/
def isoStr (t : Nat) : String := toString t

/-- `DevinIntegrationService._build_devin_prompt`. -/
def build_devin_prompt (error : SanitizedError) : String :=
  let prompt :=
    "Please analyze and fix the following runtime error in the OpenDevin repository:\n\n**Error Category:** "
      ++ error.category ++ "\n**Event:** " ++ error.event ++ "\n**Message:** "
      ++ error.message ++ "\n"
  let prompt := match error.code_location with
    | some loc => prompt ++ "**Code Location:** " ++ loc ++ "\n"
    | none => prompt
  let prompt := match error.stack_trace with
    | some st => prompt ++ "\n**Stack Trace:**\n```\n" ++ st ++ "\n```\n"
    | none => prompt
  let prompt := match error.context with
    | some ctx => prompt ++ "\n**Additional Context:**\n```json\n" ++ jdumpVal (.obj ctx) ++ "\n```\n"
    | none => prompt
  prompt ++
    "\n**Instructions:**\n1. Analyze the error and identify the root cause\n2. Implement a fix that addresses the issue\n3. Ensure the fix doesn\x27t introduce new bugs or break existing functionality\n4. Add appropriate error handling if needed\n5. Create a PR with the fix\n\nPlease focus on creating a robust, production-ready fix."

/-- One attempt section of the historical-context prompt. -/
def attemptSection (attempt : HistoricalAttempt) : String :=
  let p := "**Session:** " ++ attempt.session_url ++ "\n- Status: " ++ attempt.status ++ "\n"
  let p := match attempt.pr_url with
    | some u => p ++ "- PR: " ++ u ++ "\n"
    | none => p
  let p := match attempt.resolved_at with
    | some t => p ++ "- Resolved: " ++ dateStr t ++ "\n"
    | none => p
  let p := match attempt.resolution_notes with
    | some n => p ++ "- Notes: " ++ n ++ "\n"
    | none => p
  p ++ "\n"

/-- `DevinIntegrationService._build_prompt_with_historical_context`. -/
def build_prompt_with_historical_context (error : SanitizedError)
    (history : ErrorHistory) : String :=
  let prompt := build_devin_prompt error
  let prompt := prompt ++ "\n\n## WARNING: RECURRING ERROR - HISTORICAL CONTEXT\n"
    ++ "This error has occurred **" ++ toString history.total_occurrences ++ " times** "
  let prompt := match history.first_seen with
    | some fs => prompt ++ "since " ++ dateStr fs ++ ".\n\n"
    | none => prompt ++ "previously.\n\n"
  if history.previous_attempts.isEmpty then prompt
  else
    prompt ++ "### Previous Fix Attempts\n"
      ++ "The following Devin sessions have attempted to fix this error:\n\n"
      ++ String.join ((history.previous_attempts.take 5).map attemptSection)
      ++ "### IMPORTANT INSTRUCTIONS\n"
      ++ "1. **Review the previous sessions** linked above to understand what was tried before\n"
      ++ "2. **Do NOT repeat the same approach** if it didn\x27t work\n"
      ++ "3. **Try a different strategy** - the previous fix may have been incomplete\n"
      ++ "4. **Consider deeper investigation** - this recurring error may indicate a fundamental issue\n"
      ++ "5. **Document your approach** in the PR description so future sessions can learn from it\n"

/-- `DevinIntegrationService._record_attempt`. -/
def record_attempt (error_hash session_id session_url : String) (now : Nat)
    (s : ServiceState) : ServiceState :=
  let attempts := (alookup error_hash s.error_history).getD []
  { s with
    error_history := upsert error_hash
      (attempts ++ [{ session_id := session_id, session_url := session_url,
                      pr_url := none, status := "in_progress", created_at := now,
                      resolved_at := none, resolution_notes := none,
                      occurrence_count := 1 }]) s.error_history
    active_sessions := upsert error_hash session_id s.active_sessions }

/-- The `for`/`break` loop of `mark_pr_merged`: resolve the first attempt whose
`session_id` matches. -/
def resolveFirst (session_id pr_url : String) (notes : Option String) (now : Nat) :
    List StoredAttempt → List StoredAttempt
  | [] => []
  | a :: rest =>
    if a.session_id = session_id then
      { a with status := "resolved", resolved_at := some now, pr_url := some pr_url,
               resolution_notes := notes } :: rest
    else a :: resolveFirst session_id pr_url notes now rest

/-- `DevinIntegrationService.mark_pr_merged`. -/
def mark_pr_merged (error_hash pr_url session_id : String) (notes : Option String)
    (now : Nat) (s : ServiceState) : ServiceState :=
  let rec0 : CooldownRecord :=
    { resolved_at := now, pr_url := pr_url, session_id := session_id, notes := notes }
  let resolved' := upsert error_hash rec0 s.resolved_errors
  let history' := match alookup error_hash s.error_history with
    | none => s.error_history
    | some attempts =>
      upsert error_hash (resolveFirst session_id pr_url notes now attempts) s.error_history
  let active' := eraseKey error_hash s.active_sessions
  { s with resolved_errors := resolved', error_history := history',
           active_sessions := active' }

/-- `DevinIntegrationService.clear_active_session`. -/
def clear_active_session (error_hash : String) (s : ServiceState) : ServiceState :=
  { s with active_sessions := eraseKey error_hash s.active_sessions }

/-! ## The reporting pipeline -/

/-- The gates of the routing pipeline, in the order the code evaluates them. -/
inductive Gate where
  | severityGate
  | enableDevin
  | aiCheck
  | serviceEnabled
  | apiKeyGate
  | cooldown
  | activeSession
  | dedup
  | rateLimit
  | dispatch
deriving DecidableEq, Repr

/-- Outcome of the `httpx` POST to the Devin API: an exception, or a response
with its status and parsed body fields. -/
inductive ApiOutcome where
  | exc (msg : String)
  | resp (status : Nat) (session_id : String) (url : Option String)

/-- Result of one `report_error_with_cooldown_and_history` call: the returned
`ReportResult`, the mutated service state, the prompt of the outbound POST if
one was issued, and the trace of gates that were evaluated. -/
structure ReportOut where
  result : ReportResult
  state : ServiceState
  dispatched : Option String
  trace : List Gate

/-- `DevinIntegrationService.report_error_with_cooldown_and_history`.
`enabled` models `is_enabled()` (the `DISABLE_DEVIN_AUTO_REVIEW` toggle),
`api_key` models `_get_api_key()`, `outcome` the Devin API call. -/
def report_error_with_cooldown_and_history (enabled : Bool) (api_key : Option String)
    (error : ErrorContext) (outcome : ApiOutcome) (now : Nat) (s : ServiceState) :
    ReportOut :=
  if !enabled then
    ⟨{ success := false,
       skipped_reason := some "Devin auto-review is disabled via DISABLE_DEVIN_AUTO_REVIEW" },
     s, none, [.serviceEnabled]⟩
  else match api_key with
  | none =>
    ⟨{ success := false, error := some "No Devin API key configured" },
     s, none, [.serviceEnabled, .apiKeyGate]⟩
  | some _ =>
    let error_hash := generate_error_hash error
    match check_pr_merge_cooldown error_hash now s with
    | (true, cooldown_ends_at, merged_pr_url) =>
      ⟨{ success := true
         skipped_reason := some ("PR merge cooldown active until "
           ++ (match cooldown_ends_at with | some t => isoStr t | none => "unknown")
           ++ ". A fix was recently merged ("
           ++ merged_pr_url.getD "PR URL not available"
           ++ "). Waiting for production deployment to complete.")
         in_cooldown := true
         cooldown_ends_at := cooldown_ends_at },
       s, none, [.serviceEnabled, .apiKeyGate, .cooldown]⟩
    | (false, _, _) =>
      match check_active_session error_hash s with
      | some active_session_id =>
        ⟨{ success := true
           devin_session_id := some active_session_id
           devin_session_url := some ("https://app.devin.ai/sessions/" ++ active_session_id)
           skipped_reason := some ("Active session " ++ active_session_id
             ++ " already working on this error") },
         s, none, [.serviceEnabled, .apiKeyGate, .cooldown, .activeSession]⟩
      | none =>
        match check_duplicate error_hash now s with
        | (true, s1) =>
          ⟨{ success := false,
             skipped_reason := some "Duplicate error within deduplication window" },
           s1, none, [.serviceEnabled, .apiKeyGate, .cooldown, .activeSession, .dedup]⟩
        | (false, s1) =>
          match check_rate_limit now s1 with
          | (false, s2) =>
            ⟨{ success := false, skipped_reason := some "Rate limit exceeded" },
             s2, none,
             [.serviceEnabled, .apiKeyGate, .cooldown, .activeSession, .dedup, .rateLimit]⟩
          | (true, s2) =>
            let history := get_historical_context error_hash s2
            let sanitized_error := sanitize_error error
            let prompt :=
              if history.has_history && !history.previous_attempts.isEmpty then
                build_prompt_with_historical_context sanitized_error history
              else build_devin_prompt sanitized_error
            let fullTrace : List Gate :=
              [.serviceEnabled, .apiKeyGate, .cooldown, .activeSession, .dedup,
               .rateLimit, .dispatch]
            match outcome with
            | .exc msg =>
              ⟨{ success := false, error := some msg }, s2, some prompt, fullTrace⟩
            | .resp status session_id url =>
              if status ≠ 200 then
                ⟨{ success := false,
                   error := some ("Devin API error: " ++ toString status) },
                 s2, some prompt, fullTrace⟩
              else
                let session_url := url.getD ("https://app.devin.ai/sessions/" ++ session_id)
                let s3 := record_attempt error_hash session_id session_url now s2
                ⟨{ success := true
                   devin_session_id := some session_id
                   devin_session_url := some session_url
                   has_historical_context :=
                     history.has_history && history.previous_attempts.length > 0 },
                 s3, some prompt, fullTrace⟩

/-! ## `intelligent_error_analyzer.py` -/

/-- `ActiveWork`. -/
structure ActiveWork where
  type : String
  id : String
  title : String
  description : String
  root_cause_summary : Option String := none
  url : Option String := none
  created_at : Option Nat := none

/-- `RootCauseAnalysis`.  `root_cause`, `suggested_action` and `reasoning` hold
whatever JSON value the model returned (Python dataclass fields are unchecked);
`confidence` is an exact rational, since the values the code produces
(`0`, `0.5`, parsed numbers) are exact. -/
structure RootCauseAnalysis where
  root_cause : JValue
  category : String
  severity : String
  affected_components : List JValue := []
  suggested_action : JValue := .str ""
  is_duplicate_of_active_work : Bool := false
  matching_active_work : Option ActiveWork := none
  confidence : Rat := 1/2
  reasoning : JValue := .str ""

/-- `IntelligentErrorAnalyzerService._get_active_devin_sessions`. -/
def get_active_devin_sessions (s : ServiceState) (now : Nat) : List ActiveWork :=
  s.active_sessions.map fun p =>
    { type := "devin_session", id := p.2
      title := "Devin session " ++ p.2
      description := "Active session for error hash " ++ p.1.take 16 ++ "..."
      url := some ("https://app.devin.ai/sessions/" ++ p.2)
      created_at := some now }

/-- Uppercase a string (Python `str.upper`, ASCII fragment). -/
def upperStr (s : String) : String := String.mk (s.data.map Char.toUpper)

/-- `IntelligentErrorAnalyzerService._validate_category`.  Returns `none` when the
Python code would raise (`.upper()` on a truthy non-string), which the caller's
`except` turns into the parse-failure analysis. -/
def validate_category (category : JValue) : Option String :=
  match category with
  | .str s =>
    let normalized := if s ≠ "" then upperStr s else "OTHER"
    some (if ["SECURITY", "FUNCTIONAL", "DATA_INTEGRITY", "USER_EXPERIENCE",
              "PERFORMANCE", "OTHER"].contains normalized then normalized else "OTHER")
  | v => if jTruthy v then none else some "OTHER"

/-- `IntelligentErrorAnalyzerService._validate_severity` (same raising convention). -/
def validate_severity (severity : JValue) : Option String :=
  match severity with
  | .str s =>
    let normalized := if s ≠ "" then upperStr s else "ERROR"
    some (if ["DEBUG", "INFO", "WARNING", "ERROR", "CRITICAL"].contains normalized
          then normalized else "ERROR")
  | v => if jTruthy v then none else some "ERROR"

/-- The `except` branch of `_parse_analysis_response`. -/
def parseFailAnalysis (e : String) : RootCauseAnalysis :=
  { root_cause := .str "Failed to parse AI analysis"
    category := "OTHER"
    severity := "ERROR"
    suggested_action := .str "Manual review required"
    is_duplicate_of_active_work := false
    confidence := 0
    reasoning := .str ("Parse error: " ++ e) }

/-- The fence-extraction step of `_parse_analysis_response`: take the text
between the first pair of triple-backtick fences when there is one, dropping an
optional leading `json` tag, and strip it; otherwise the whole response. -/
def extractFenced (response_text : String) : String :=
  match response_text.splitOn "```" with
  | _ :: middle :: _ :: _ =>
    (if middle.startsWith "json" then middle.drop 4 else middle).trim
  | _ => response_text

/-- `IntelligentErrorAnalyzerService._parse_analysis_response`.  `parseJson`
stands for `json.loads` (`none` models a raised `JSONDecodeError`); a non-object
result makes the subsequent `.get` raise, landing in the same `except` branch. -/
def parse_analysis_response (parseJson : String → Option JValue)
    (response_text : String) (active_work : List ActiveWork) : RootCauseAnalysis :=
  let json_text := extractFenced response_text
  match parseJson json_text with
  | some (.obj parsed) =>
    let get := fun (k : String) => alookup k parsed
    match validate_category ((get "category").getD (.str "OTHER")),
          validate_severity ((get "severity").getD (.str "ERROR")) with
    | some category, some severity =>
      let matchingId := get "matchingActiveWorkId"
      let isDup := ((get "isDuplicateOfActiveWork").map jTruthy).getD false
      let matching_active_work :=
        if ((matchingId.map jTruthy).getD false) && isDup then
          active_work.find? fun w =>
            match matchingId with
            | some (.str mid) => w.id = mid
            | _ => false
        else none
      { root_cause := (get "rootCause").getD (.str "Unknown root cause")
        category := category
        severity := severity
        affected_components :=
          match get "affectedComponents" with
          | some (.arr xs) => xs
          | _ => []
        suggested_action := (get "suggestedAction").getD (.str "Manual review required")
        is_duplicate_of_active_work := isDup
        matching_active_work := matching_active_work
        confidence :=
          match get "confidence" with
          | some (.num q) => q
          | some (.bool b) => if b then 1 else 0
          | _ => 1/2
        reasoning := (get "reasoning").getD (.str "No reasoning provided") }
    | _, _ => parseFailAnalysis "category or severity is not a string"
  | _ => parseFailAnalysis "json decode failure"

/-- The no-API-key analysis of `analyze_error`. -/
def noKeyAnalysis : RootCauseAnalysis :=
  { root_cause := .str "API key not configured"
    category := "OTHER"
    severity := "ERROR"
    suggested_action := .str "Manual review required"
    is_duplicate_of_active_work := false
    confidence := 0
    reasoning := .str "Anthropic API key not configured, defaulting to allow error reporting" }

/-- The `except` analysis of `analyze_error`. -/
def analysisFailedAnalysis (e : String) : RootCauseAnalysis :=
  { root_cause := .str ("Analysis failed: " ++ e)
    category := "OTHER"
    severity := "ERROR"
    suggested_action := .str "Manual review required"
    is_duplicate_of_active_work := false
    confidence := 0
    reasoning := .str "AI analysis failed, defaulting to allow error reporting" }

/-- Outcome of the `httpx` POST to the Anthropic messages endpoint: a raised
exception (timeouts, transport failures, undecodable response bodies), or a
response with its status and the extracted `content[0].text`. -/
inductive AnthropicOutcome where
  | exc (msg : String)
  | resp (status : Nat) (text : String)

/-- `IntelligentErrorAnalyzerService.analyze_error`.  `open_prs` stands for the
result of `_get_open_unmerged_prs` (empty when the GitHub token is missing or
the network call fails); a non-200 status raises and is caught by the same `except`
as transport failures, exactly as in the source. -/
def analyze_error (anthropic_api_key : Option String) (s : ServiceState) (now : Nat)
    (open_prs : List ActiveWork) (outcome : AnthropicOutcome)
    (parseJson : String → Option JValue) : RootCauseAnalysis :=
  match anthropic_api_key with
  | none => noKeyAnalysis
  | some _ =>
    let all_active_work := get_active_devin_sessions s now ++ open_prs
    match outcome with
    | .exc e => analysisFailedAnalysis e
    | .resp status text =>
      if status ≠ 200 then
        analysisFailedAnalysis ("AI analysis failed: " ++ toString status)
      else parse_analysis_response parseJson text all_active_work

/-- `IntelligentErrorAnalyzerService.should_send_for_repair`. -/
def should_send_for_repair (anthropic_api_key : Option String) (s : ServiceState)
    (now : Nat) (open_prs : List ActiveWork) (outcome : AnthropicOutcome)
    (parseJson : String → Option JValue) : Bool × RootCauseAnalysis :=
  let analysis := analyze_error anthropic_api_key s now open_prs outcome parseJson
  if analysis.is_duplicate_of_active_work then (false, analysis) else (true, analysis)

/-! ## `error_router.py` -/

/-- `ErrorReport`. -/
structure ErrorReport where
  category : String
  event : String
  message : String
  stack_trace : Option String := none
  code_location : Option String := none
  context : Option (List (String × JValue)) := none
  severity : String := "ERROR"
  source_repo : Option String := none

/-- `RoutingResult`. -/
structure RoutingResult where
  success : Bool
  router : String := "devin"
  notification_id : Option String := none
  devin_session_id : Option String := none
  devin_session_url : Option String := none
  linked_to_existing : Bool := false
  error : Option String := none
  skipped_reason : Option String := none
  ai_analysis : Option RootCauseAnalysis := none

/-- `ErrorRouterConfig`. -/
structure ErrorRouterConfig where
  enable_devin : Bool := true
  min_severity : String := "ERROR"
  enable_ai_analysis : Bool := true

/-- `SEVERITY_LEVELS`. -/
def SEVERITY_LEVELS : List (String × Nat) :=
  [("DEBUG", 0), ("INFO", 1), ("WARNING", 2), ("ERROR", 3), ("CRITICAL", 4)]

/-- `ErrorRouterService._meets_min_severity`. -/
def meets_min_severity (cfg : ErrorRouterConfig) (severity : String) : Bool :=
  let error_level := (alookup (upperStr severity) SEVERITY_LEVELS).getD 3
  let min_level := (alookup (upperStr cfg.min_severity) SEVERITY_LEVELS).getD 3
  min_level ≤ error_level

/-- Result of one `route_error` call, shaped like `ReportOut`. -/
structure RouteOut where
  result : RoutingResult
  state : ServiceState
  dispatched : Option String
  trace : List Gate

/-- The `ErrorContext` built inside `_route_to_devin`. -/
def toErrorContext (error : ErrorReport) : ErrorContext :=
  { category := error.category, event := error.event, message := error.message
    stack_trace := error.stack_trace, code_location := error.code_location
    context := error.context, severity := error.severity }

/-- `ErrorRouterService._route_to_devin`: delegate to
`report_error_with_cooldown_and_history` and re-wrap the result — note that
`linked_to_existing` is always `false` on this path. -/
def route_to_devin (error : ErrorReport) (analysis : Option RootCauseAnalysis)
    (enabled : Bool) (api_key : Option String) (outcome : ApiOutcome) (now : Nat)
    (s : ServiceState) : RouteOut :=
  let out := report_error_with_cooldown_and_history enabled api_key
    (toErrorContext error) outcome now s
  ⟨{ success := out.result.success
     notification_id := out.result.notification_id
     devin_session_id := out.result.devin_session_id
     devin_session_url := out.result.devin_session_url
     linked_to_existing := false
     error := out.result.error
     skipped_reason := out.result.skipped_reason
     ai_analysis := analysis },
   out.state, out.dispatched, out.trace⟩

/-- The `"ai_analysis"` entry of the enriched context. -/
def aiAnalysisCtx (analysis : RootCauseAnalysis) : JValue :=
  .obj [("root_cause", analysis.root_cause),
        ("category", .str analysis.category),
        ("severity", .str analysis.severity),
        ("affected_components", .arr analysis.affected_components),
        ("suggested_action", analysis.suggested_action),
        ("confidence", .num analysis.confidence)]

/-- The enriched `ErrorReport` built on the AI-passed path of `route_error`. -/
def enrichedReport (error : ErrorReport) (analysis : RootCauseAnalysis) : ErrorReport :=
  let ctx := upsert "ai_analysis" (aiAnalysisCtx analysis) (error.context.getD [])
  { error with context := some ctx }

/-- Display of a JSON-like value inside an f-string. -/
def jToDisplay : JValue → String
  | .str s => s
  | v => jdumpVal v

/-- The matching-work title used in the AI-duplicate message. -/
def matchingTitle (analysis : RootCauseAnalysis) : String :=
  match analysis.matching_active_work with
  | some w => w.title
  | none => "Active work item"

/-- `ErrorRouterService.route_error`.  `aiOutcome` models the
`should_send_for_repair` call: `some (should_send, analysis)` is its returned
pair, `none` a raised exception (which falls through to the fallback routing).
The trace records every gate the call evaluates, in evaluation order. -/
def route_error (cfg : ErrorRouterConfig) (error : ErrorReport)
    (aiOutcome : Option (Bool × RootCauseAnalysis)) (enabled : Bool)
    (api_key : Option String) (outcome : ApiOutcome) (now : Nat) (s : ServiceState) :
    RouteOut :=
  let severity := if error.severity = "" then "ERROR" else error.severity
  if !meets_min_severity cfg severity then
    ⟨{ success := false
       error := some ("Severity " ++ severity ++ " below threshold " ++ cfg.min_severity) },
     s, none, [.severityGate]⟩
  else if !cfg.enable_devin then
    ⟨{ success := false, error := some "Devin integration is disabled" },
     s, none, [.severityGate, .enableDevin]⟩
  else if cfg.enable_ai_analysis then
    match aiOutcome with
    | some (false, analysis) =>
      ⟨{ success := false
         linked_to_existing := true
         error := some ("Duplicate of active work: " ++ matchingTitle analysis
           ++ ". Reasoning: " ++ jToDisplay analysis.reasoning)
         ai_analysis := some analysis },
       s, none, [.severityGate, .enableDevin, .aiCheck]⟩
    | some (true, analysis) =>
      let out := route_to_devin (enrichedReport error analysis) (some analysis)
        enabled api_key outcome now s
      ⟨out.result, out.state, out.dispatched,
       [.severityGate, .enableDevin, .aiCheck] ++ out.trace⟩
    | none =>
      let out := route_to_devin error none enabled api_key outcome now s
      ⟨out.result, out.state, out.dispatched,
       [.severityGate, .enableDevin, .aiCheck] ++ out.trace⟩
  else
    let out := route_to_devin error none enabled api_key outcome now s
    ⟨out.result, out.state, out.dispatched, [.severityGate, .enableDevin] ++ out.trace⟩

/-! ## Reachability of the cooldown & history store -/

/-- The mutating operations of the cooldown & history store. -/
inductive HistOp where
  | record (error_hash session_id session_url : String)
  | merge (error_hash pr_url session_id : String) (notes : Option String)
  | clear (error_hash : String)

/-- Apply a store operation at clock instant `t`. -/
def applyHistOp : HistOp → Nat → ServiceState → ServiceState
  | .record h sid url, t, s => record_attempt h sid url t s
  | .merge h pr sid notes, t, s => mark_pr_merged h pr sid notes t s
  | .clear h, _, s => clear_active_session h s

/-- Reachable states of the service, paired with the clock of the last event.
A fresh service is reachable; so is any state obtained by a store operation or
a full `report_error_with_cooldown_and_history` call at a non-decreasing clock. -/
inductive Reach : ServiceState → Nat → Prop where
  | init (t0 : Nat) : Reach (initialState t0) 0
  | step {s : ServiceState} {t : Nat} (op : HistOp) (t' : Nat) :
      Reach s t → t ≤ t' → Reach (applyHistOp op t' s) t'
  | reportStep {s : ServiceState} {t : Nat} (enabled : Bool) (api_key : Option String)
      (e : ErrorContext) (o : ApiOutcome) (t' : Nat) :
      Reach s t → t ≤ t' →
      Reach (report_error_with_cooldown_and_history enabled api_key e o t' s).state t'

/-- The invariant of the cooldown & history store: resolved timestamps are
bounded by the clock, every active session is backed by an in-progress
history attempt with the same session id, and the active table is a map. -/
def HistoryInv (s : ServiceState) (clock : Nat) : Prop :=
  (∀ h r, alookup h s.resolved_errors = some r → r.resolved_at ≤ clock)
  ∧ (∀ h sid, alookup h s.active_sessions = some sid →
      ∃ a ∈ (alookup h s.error_history).getD [],
        a.session_id = sid ∧ a.status = "in_progress")
  ∧ (keysOf s.active_sessions).Nodup

/-! ## Gate-order and rate-limiter traces -/

/-- The full gate order of `route_error` with AI analysis enabled. -/
def gateOrderAI : List Gate :=
  [.severityGate, .enableDevin, .aiCheck, .serviceEnabled, .apiKeyGate, .cooldown,
   .activeSession, .dedup, .rateLimit, .dispatch]

/-- The full gate order of `route_error` with AI analysis disabled. -/
def gateOrderNoAI : List Gate :=
  [.severityGate, .enableDevin, .serviceEnabled, .apiKeyGate, .cooldown,
   .activeSession, .dedup, .rateLimit, .dispatch]

/-- Run `_check_rate_limit` at each instant of a list, counting admissions. -/
def rateGrants : ServiceState → List Nat → Nat
  | _, [] => 0
  | s, t :: ts =>
    match check_rate_limit t s with
    | (granted, s') => (if granted then 1 else 0) + rateGrants s' ts

/-- The state after running `_check_rate_limit` at each instant of a list. -/
def rateRun : ServiceState → List Nat → ServiceState
  | s, [] => s
  | s, t :: ts => rateRun (check_rate_limit t s).2 ts

/-! ## Lemmas about the association-list primitives -/

theorem alookup_upsert_self {α : Type} (k : String) (v : α) (l : List (String × α)) :
    alookup k (upsert k v l) = some v := by
  induction l with
  | nil => simp [upsert, alookup]
  | cons p t ih =>
    obtain ⟨a, b⟩ := p
    by_cases h : a = k
    · simp [upsert, h, alookup]
    · simp [upsert, h, alookup, ih]

theorem alookup_upsert_ne {α : Type} (k k' : String) (v : α) (l : List (String × α))
    (h : k ≠ k') : alookup k' (upsert k v l) = alookup k' l := by
  induction l with
  | nil => simp [upsert, alookup, h]
  | cons p t ih =>
    obtain ⟨a, b⟩ := p
    by_cases ha : a = k
    · subst ha
      simp [upsert, alookup, h, ih]
    · by_cases ha' : a = k'
      · subst ha'
        simp [upsert, ha, alookup, Ne.symm h]
      · simp [upsert, ha, alookup, ha', ih]

theorem alookup_eraseKey_ne {α : Type} (k k' : String) (l : List (String × α))
    (h : k ≠ k') : alookup k' (eraseKey k l) = alookup k' l := by
  induction l with
  | nil => simp [eraseKey]
  | cons p t ih =>
    obtain ⟨a, b⟩ := p
    by_cases ha : a = k
    · subst ha
      simp [eraseKey, alookup, h, ih]
    · simp [eraseKey, ha, alookup, ih]

theorem keysOf_nil {α : Type} : keysOf ([] : List (String × α)) = [] := rfl

theorem keysOf_cons {α : Type} (a : String) (b : α) (t : List (String × α)) :
    keysOf ((a, b) :: t) = a :: keysOf t := rfl

theorem mem_keysOf_upsert {α : Type} (k x : String) (v : α) (l : List (String × α))
    (h : x ∈ keysOf (upsert k v l)) : x = k ∨ x ∈ keysOf l := by
  induction l with
  | nil =>
    simp only [upsert, keysOf_cons, keysOf_nil, List.mem_cons, List.not_mem_nil,
      or_false] at h
    exact Or.inl h
  | cons p t ih =>
    obtain ⟨a, b⟩ := p
    by_cases ha : a = k
    · simp only [upsert, if_pos ha, keysOf_cons, List.mem_cons] at h
      rcases h with h1 | h2
      · exact Or.inl h1
      · rw [keysOf_cons, List.mem_cons]
        exact Or.inr (Or.inr h2)
    · simp only [upsert, if_neg ha, keysOf_cons, List.mem_cons] at h
      rcases h with h1 | h2
      · rw [keysOf_cons, List.mem_cons]
        exact Or.inr (Or.inl h1)
      · rcases ih h2 with h' | h'
        · exact Or.inl h'
        · rw [keysOf_cons, List.mem_cons]
          exact Or.inr (Or.inr h')

theorem keysNodup_upsert {α : Type} (k : String) (v : α) (l : List (String × α))
    (h : (keysOf l).Nodup) : (keysOf (upsert k v l)).Nodup := by
  induction l with
  | nil => simp [upsert, keysOf]
  | cons p t ih =>
    obtain ⟨a, b⟩ := p
    rw [keysOf_cons, List.nodup_cons] at h
    by_cases ha : a = k
    · simp only [upsert, if_pos ha, keysOf_cons, List.nodup_cons]
      exact ⟨fun hm => h.1 (ha ▸ hm), h.2⟩
    · simp only [upsert, if_neg ha, keysOf_cons, List.nodup_cons]
      refine ⟨fun hx => ?_, ih h.2⟩
      rcases mem_keysOf_upsert k a v t hx with h' | h'
      · exact ha h'
      · exact h.1 h'

theorem mem_keysOf_eraseKey {α : Type} (k x : String) (l : List (String × α))
    (h : x ∈ keysOf (eraseKey k l)) : x ∈ keysOf l := by
  induction l with
  | nil => simpa [eraseKey] using h
  | cons p t ih =>
    obtain ⟨a, b⟩ := p
    by_cases ha : a = k
    · subst ha
      simp only [eraseKey, if_pos rfl] at h
      rw [keysOf_cons, List.mem_cons]
      exact Or.inr h
    · simp only [eraseKey, if_neg ha, keysOf_cons, List.mem_cons] at h
      rw [keysOf_cons, List.mem_cons]
      rcases h with h | h
      · exact Or.inl h
      · exact Or.inr (ih h)

theorem keysNodup_eraseKey {α : Type} (k : String) (l : List (String × α))
    (h : (keysOf l).Nodup) : (keysOf (eraseKey k l)).Nodup := by
  induction l with
  | nil => simp [eraseKey, keysOf]
  | cons p t ih =>
    obtain ⟨a, b⟩ := p
    rw [keysOf_cons, List.nodup_cons] at h
    by_cases ha : a = k
    · subst ha
      simpa only [eraseKey, if_pos rfl] using h.2
    · simp only [eraseKey, if_neg ha, keysOf_cons, List.nodup_cons]
      exact ⟨fun hx => h.1 (mem_keysOf_eraseKey k a t hx), ih h.2⟩

theorem alookup_eq_none_of_not_mem {α : Type} (k : String) (l : List (String × α))
    (h : k ∉ keysOf l) : alookup k l = none := by
  induction l with
  | nil => simp [alookup]
  | cons p t ih =>
    obtain ⟨a, b⟩ := p
    rw [keysOf_cons, List.mem_cons] at h
    push_neg at h
    simp only [alookup, if_neg (fun he : a = k => h.1 he.symm)]
    exact ih h.2

theorem alookup_eraseKey_self {α : Type} (k : String) (l : List (String × α))
    (h : (keysOf l).Nodup) : alookup k (eraseKey k l) = none := by
  induction l with
  | nil => simp [eraseKey, alookup]
  | cons p t ih =>
    obtain ⟨a, b⟩ := p
    rw [keysOf_cons, List.nodup_cons] at h
    by_cases ha : a = k
    · subst ha
      simp only [eraseKey, if_pos rfl]
      exact alookup_eq_none_of_not_mem a t h.1
    · simp only [eraseKey, if_neg ha, alookup, if_neg ha]
      exact ih h.2

theorem upsert_of_alookup_eq {α : Type} (k : String) (v : α) (l : List (String × α))
    (h : alookup k l = some v) : upsert k v l = l := by
  induction l with
  | nil => simp [alookup] at h
  | cons p t ih =>
    obtain ⟨a, b⟩ := p
    by_cases ha : a = k
    · subst ha
      simp [alookup] at h
      simp [upsert, h]
    · simp [alookup, ha] at h
      simp [upsert, ha, ih h]

theorem resolveFirst_eq_of_no_match (session_id pr_url : String) (notes : Option String)
    (now : Nat) (l : List StoredAttempt)
    (h : ∀ a ∈ l, a.session_id ≠ session_id) :
    resolveFirst session_id pr_url notes now l = l := by
  induction l with
  | nil => rfl
  | cons a t ih =>
    have ha : a.session_id ≠ session_id := h a (List.mem_cons_self a t)
    simp only [resolveFirst, if_neg ha]
    rw [ih (fun x hx => h x (List.mem_cons_of_mem a hx))]

/-- The three table projections of `mark_pr_merged`. -/
theorem mark_pr_merged_fields (error_hash pr_url session_id : String)
    (notes : Option String) (now : Nat) (s : ServiceState) :
    (mark_pr_merged error_hash pr_url session_id notes now s).resolved_errors =
      upsert error_hash
        { resolved_at := now, pr_url := pr_url, session_id := session_id, notes := notes }
        s.resolved_errors
    ∧ (mark_pr_merged error_hash pr_url session_id notes now s).active_sessions =
        eraseKey error_hash s.active_sessions
    ∧ (mark_pr_merged error_hash pr_url session_id notes now s).error_history =
        (match alookup error_hash s.error_history with
         | none => s.error_history
         | some attempts =>
           upsert error_hash (resolveFirst session_id pr_url notes now attempts)
             s.error_history)
    ∧ (mark_pr_merged error_hash pr_url session_id notes now s).request_counts =
        s.request_counts
    ∧ (mark_pr_merged error_hash pr_url session_id notes now s).recent_error_hashes =
        s.recent_error_hashes
    ∧ (mark_pr_merged error_hash pr_url session_id notes now s).last_request_reset =
        s.last_request_reset := by
  unfold mark_pr_merged
  cases alookup error_hash s.error_history <;>
    exact ⟨rfl, rfl, rfl, rfl, rfl, rfl⟩

/-- **C10.** `mark_pr_merged(h, pr_url, session_id, notes)` is total over arbitrary
error hashes: it always writes the cooldown record for `h` (so a 5-minute
cooldown starts even for a hash that was never dispatched) and removes any
active session for `h`; when `session_id` matches no attempt in `history[h]`,
the history table is left unchanged. -/
theorem c10_mark_pr_merged_total (s : ServiceState) (h pr sid : String)
    (notes : Option String) (t : Nat)
    (hwf : (keysOf s.active_sessions).Nodup) :
    alookup h (mark_pr_merged h pr sid notes t s).resolved_errors =
      some { resolved_at := t, pr_url := pr, session_id := sid, notes := notes }
    ∧ alookup h (mark_pr_merged h pr sid notes t s).active_sessions = none
    ∧ (∀ t', t' < t + PR_MERGE_COOLDOWN_SECONDS →
        check_pr_merge_cooldown h t' (mark_pr_merged h pr sid notes t s) =
          (true, some (t + PR_MERGE_COOLDOWN_SECONDS), some pr))
    ∧ ((∀ a ∈ (alookup h s.error_history).getD [], a.session_id ≠ sid) →
        (mark_pr_merged h pr sid notes t s).error_history = s.error_history) := by
  obtain ⟨hres, hact, hhist, -, -, -⟩ := mark_pr_merged_fields h pr sid notes t s
  refine ⟨?_, ?_, ?_, ?_⟩
  · rw [hres, alookup_upsert_self]
  · rw [hact]
    exact alookup_eraseKey_self h s.active_sessions hwf
  · intro t' ht'
    unfold check_pr_merge_cooldown
    rw [hres, alookup_upsert_self]
    simp only [if_pos ht']
  · intro hno
    rw [hhist]
    cases hh : alookup h s.error_history with
    | none => rfl
    | some attempts =>
      have hall : ∀ a ∈ attempts, a.session_id ≠ sid := by
        intro a ha
        exact hno a (by rw [hh]; exact ha)
      show upsert h (resolveFirst sid pr notes t attempts) s.error_history =
        s.error_history
      rw [resolveFirst_eq_of_no_match sid pr notes t attempts hall]
      exact upsert_of_alookup_eq h attempts s.error_history hh

/-- **C2.** A `report` call issued within `PR_MERGE_COOLDOWN` (5 minutes) of
`mark_pr_merged(fingerprint(e), …)` with no intervening merge performs no
outbound dispatch, appends no new Attempt (the state, hence the history table,
is unchanged), and returns success with `in_cooldown = true` and
`cooldown_ends_at = resolved_at + 5 min`. -/
theorem c2_cooldown_skip (s : ServiceState) (e : ErrorContext) (outcome : ApiOutcome)
    (pr sid key : String) (notes : Option String) (tm t : Nat)
    (ht : t < tm + PR_MERGE_COOLDOWN_SECONDS) :
    (report_error_with_cooldown_and_history true (some key) e outcome t
        (mark_pr_merged (generate_error_hash e) pr sid notes tm s)).result.success = true
    ∧ (report_error_with_cooldown_and_history true (some key) e outcome t
        (mark_pr_merged (generate_error_hash e) pr sid notes tm s)).result.in_cooldown = true
    ∧ (report_error_with_cooldown_and_history true (some key) e outcome t
        (mark_pr_merged (generate_error_hash e) pr sid notes tm s)).result.cooldown_ends_at =
        some (tm + PR_MERGE_COOLDOWN_SECONDS)
    ∧ (report_error_with_cooldown_and_history true (some key) e outcome t
        (mark_pr_merged (generate_error_hash e) pr sid notes tm s)).dispatched = none
    ∧ (report_error_with_cooldown_and_history true (some key) e outcome t
        (mark_pr_merged (generate_error_hash e) pr sid notes tm s)).state =
        mark_pr_merged (generate_error_hash e) pr sid notes tm s := by
  have hcd : check_pr_merge_cooldown (generate_error_hash e) t
      (mark_pr_merged (generate_error_hash e) pr sid notes tm s) =
      (true, some (tm + PR_MERGE_COOLDOWN_SECONDS), some pr) := by
    unfold check_pr_merge_cooldown
    rw [(mark_pr_merged_fields (generate_error_hash e) pr sid notes tm s).1,
      alookup_upsert_self]
    simp only [if_pos ht]
  unfold report_error_with_cooldown_and_history
  dsimp only
  rw [hcd]
  exact ⟨rfl, rfl, rfl, rfl, rfl⟩

/-- Witness for C2: the happy-path error report, a merge at time 0, and a
re-report 60 seconds later. -/
theorem c2_cooldown_skip_witness :
    (let e0 : ErrorContext :=
      { category := "agent_error", event := "timeout", message := "request took 30s" }
     let s' := mark_pr_merged (generate_error_hash e0) "https://host/pr/7" "sess-1"
       none 0 (initialState 0)
     (report_error_with_cooldown_and_history true (some "k") e0
        (.resp 200 "sess-2" none) 60 s').result.success = true
     ∧ (report_error_with_cooldown_and_history true (some "k") e0
        (.resp 200 "sess-2" none) 60 s').result.in_cooldown = true
     ∧ (report_error_with_cooldown_and_history true (some "k") e0
        (.resp 200 "sess-2" none) 60 s').result.cooldown_ends_at =
        some (0 + PR_MERGE_COOLDOWN_SECONDS)
     ∧ (report_error_with_cooldown_and_history true (some "k") e0
        (.resp 200 "sess-2" none) 60 s').dispatched = none
     ∧ (report_error_with_cooldown_and_history true (some "k") e0
        (.resp 200 "sess-2" none) 60 s').state = s') := by
  exact c2_cooldown_skip (initialState 0) _ (.resp 200 "sess-2" none)
    "https://host/pr/7" "sess-1" "k" none 0 60 (by decide)

/-- `_check_duplicate` only touches the recent-hash table. -/
theorem check_duplicate_snd_fields (h : String) (now : Nat) (s : ServiceState) :
    (check_duplicate h now s).2.resolved_errors = s.resolved_errors
    ∧ (check_duplicate h now s).2.error_history = s.error_history
    ∧ (check_duplicate h now s).2.active_sessions = s.active_sessions
    ∧ (check_duplicate h now s).2.request_counts = s.request_counts
    ∧ (check_duplicate h now s).2.last_request_reset = s.last_request_reset := by
  unfold check_duplicate
  dsimp only
  split <;> exact ⟨rfl, rfl, rfl, rfl, rfl⟩

/-- `_check_rate_limit` only touches the quota bucket. -/
theorem check_rate_limit_snd_fields (now : Nat) (s : ServiceState) :
    (check_rate_limit now s).2.resolved_errors = s.resolved_errors
    ∧ (check_rate_limit now s).2.error_history = s.error_history
    ∧ (check_rate_limit now s).2.active_sessions = s.active_sessions
    ∧ (check_rate_limit now s).2.recent_error_hashes = s.recent_error_hashes := by
  unfold check_rate_limit
  dsimp only
  split <;> split <;> exact ⟨rfl, rfl, rfl, rfl⟩

/-- A full report call either leaves the resolved/history/active tables unchanged,
or (on a successful dispatch) changes the history and active tables exactly as
`_record_attempt` does. -/
theorem report_state_shape (enabled : Bool) (api_key : Option String) (e : ErrorContext)
    (o : ApiOutcome) (now : Nat) (s : ServiceState) :
    (report_error_with_cooldown_and_history enabled api_key e o now s).state.resolved_errors
      = s.resolved_errors
    ∧ (((report_error_with_cooldown_and_history enabled api_key e o now s).state.error_history
          = s.error_history
        ∧ (report_error_with_cooldown_and_history enabled api_key e o now s).state.active_sessions
          = s.active_sessions)
      ∨ (∃ sid url,
          (report_error_with_cooldown_and_history enabled api_key e o now s).state.error_history
            = (record_attempt (generate_error_hash e) sid url now s).error_history
          ∧ (report_error_with_cooldown_and_history enabled api_key e o now s).state.active_sessions
            = (record_attempt (generate_error_hash e) sid url now s).active_sessions)) := by
  unfold report_error_with_cooldown_and_history
  dsimp only
  split
  · exact ⟨rfl, Or.inl ⟨rfl, rfl⟩⟩
  · split
    · exact ⟨rfl, Or.inl ⟨rfl, rfl⟩⟩
    · split
      · exact ⟨rfl, Or.inl ⟨rfl, rfl⟩⟩
      · split
        · exact ⟨rfl, Or.inl ⟨rfl, rfl⟩⟩
        · split
          · next s1 heq =>
            have hs1 : (check_duplicate (generate_error_hash e) now s).2 = s1 :=
              congrArg Prod.snd heq
            obtain ⟨h1, h2, h3, -, -⟩ := check_duplicate_snd_fields
              (generate_error_hash e) now s
            rw [hs1] at h1 h2 h3
            exact ⟨h1, Or.inl ⟨h2, h3⟩⟩
          · next s1 heq =>
            have hs1 : (check_duplicate (generate_error_hash e) now s).2 = s1 :=
              congrArg Prod.snd heq
            obtain ⟨d1, d2, d3, -, -⟩ := check_duplicate_snd_fields
              (generate_error_hash e) now s
            rw [hs1] at d1 d2 d3
            split
            · next s2 heq2 =>
              have hs2 : (check_rate_limit now s1).2 = s2 := congrArg Prod.snd heq2
              obtain ⟨r1, r2, r3, -⟩ := check_rate_limit_snd_fields now s1
              rw [hs2] at r1 r2 r3
              exact ⟨r1.trans d1, Or.inl ⟨r2.trans d2, r3.trans d3⟩⟩
            · next s2 heq2 =>
              have hs2 : (check_rate_limit now s1).2 = s2 := congrArg Prod.snd heq2
              obtain ⟨r1, r2, r3, -⟩ := check_rate_limit_snd_fields now s1
              rw [hs2] at r1 r2 r3
              have e1 : s2.resolved_errors = s.resolved_errors := r1.trans d1
              have e2 : s2.error_history = s.error_history := r2.trans d2
              have e3 : s2.active_sessions = s.active_sessions := r3.trans d3
              split
              · exact ⟨e1, Or.inl ⟨e2, e3⟩⟩
              · next status session_id url =>
                split
                · exact ⟨e1, Or.inl ⟨e2, e3⟩⟩
                · refine ⟨e1, Or.inr ⟨session_id,
                    url.getD ("https://app.devin.ai/sessions/" ++ session_id), ?_, ?_⟩⟩
                  · unfold record_attempt
                    dsimp only
                    rw [e2]
                  · unfold record_attempt
                    dsimp only
                    rw [e3]

theorem historyInv_mono {s : ServiceState} {t t' : Nat} (inv : HistoryInv s t)
    (h : t ≤ t') : HistoryInv s t' := by
  obtain ⟨i1, i2, i3⟩ := inv
  exact ⟨fun h₂ r hr => (i1 h₂ r hr).trans h, i2, i3⟩

theorem historyInv_record (h sid url : String) (t : Nat) (s : ServiceState)
    (inv : HistoryInv s t) : HistoryInv (record_attempt h sid url t s) t := by
  obtain ⟨i1, i2, i3⟩ := inv
  unfold record_attempt
  dsimp only
  refine ⟨i1, ?_, keysNodup_upsert h sid s.active_sessions i3⟩
  intro h₂ sid₂ hl
  by_cases hh : h₂ = h
  · subst hh
    rw [alookup_upsert_self] at hl
    rw [alookup_upsert_self]
    refine ⟨{ session_id := sid, session_url := url, pr_url := none,
              status := "in_progress", created_at := t, resolved_at := none,
              resolution_notes := none, occurrence_count := 1 },
      by simp, Option.some.inj hl, rfl⟩
  · rw [alookup_upsert_ne h h₂ sid s.active_sessions (fun he => hh he.symm)] at hl
    rw [alookup_upsert_ne h h₂ _ s.error_history (fun he => hh he.symm)]
    exact i2 h₂ sid₂ hl

theorem historyInv_merge (h pr sid : String) (notes : Option String) (t : Nat)
    (s : ServiceState) (inv : HistoryInv s t) :
    HistoryInv (mark_pr_merged h pr sid notes t s) t := by
  obtain ⟨i1, i2, i3⟩ := inv
  obtain ⟨hres, hact, hhist, -, -, -⟩ := mark_pr_merged_fields h pr sid notes t s
  refine ⟨?_, ?_, ?_⟩
  · intro h₂ r hr
    rw [hres] at hr
    by_cases hh : h₂ = h
    · subst hh
      rw [alookup_upsert_self] at hr
      injection hr with hr
      subst hr
      exact le_refl t
    · rw [alookup_upsert_ne h h₂ _ s.resolved_errors (fun he => hh he.symm)] at hr
      exact i1 h₂ r hr
  · intro h₂ sid₂ hl
    rw [hact] at hl
    by_cases hh : h₂ = h
    · subst hh
      rw [alookup_eraseKey_self h₂ s.active_sessions i3] at hl
      exact absurd hl (by simp)
    · rw [alookup_eraseKey_ne h h₂ s.active_sessions (fun he => hh he.symm)] at hl
      have hmem := i2 h₂ sid₂ hl
      rw [hhist]
      cases hcase : alookup h s.error_history with
      | none => exact hmem
      | some attempts =>
        rw [alookup_upsert_ne h h₂ _ s.error_history (fun he => hh he.symm)]
        exact hmem
  · rw [hact]
    exact keysNodup_eraseKey h s.active_sessions i3

theorem historyInv_clear (h : String) (t : Nat) (s : ServiceState)
    (inv : HistoryInv s t) : HistoryInv (clear_active_session h s) t := by
  obtain ⟨i1, i2, i3⟩ := inv
  unfold clear_active_session
  refine ⟨i1, ?_, keysNodup_eraseKey h s.active_sessions i3⟩
  intro h₂ sid₂ hl
  dsimp only at hl
  by_cases hh : h₂ = h
  · subst hh
    rw [alookup_eraseKey_self h₂ s.active_sessions i3] at hl
    exact absurd hl (by simp)
  · rw [alookup_eraseKey_ne h h₂ s.active_sessions (fun he => hh he.symm)] at hl
    exact i2 h₂ sid₂ hl

theorem historyInv_report (enabled : Bool) (api_key : Option String) (e : ErrorContext)
    (o : ApiOutcome) (t : Nat) (s : ServiceState) (inv : HistoryInv s t) :
    HistoryInv (report_error_with_cooldown_and_history enabled api_key e o t s).state t := by
  obtain ⟨hres, hrest⟩ := report_state_shape enabled api_key e o t s
  obtain ⟨i1, i2, i3⟩ := inv
  rcases hrest with ⟨hH, hA⟩ | ⟨sid, url, hH, hA⟩
  · refine ⟨?_, ?_, ?_⟩
    · intro h₂ r hr
      rw [hres] at hr
      exact i1 h₂ r hr
    · intro h₂ sid₂ hl
      rw [hA] at hl
      rw [hH]
      exact i2 h₂ sid₂ hl
    · rw [hA]
      exact i3
  · have hrec := historyInv_record (generate_error_hash e) sid url t s ⟨i1, i2, i3⟩
    obtain ⟨r1, r2, r3⟩ := hrec
    refine ⟨?_, ?_, ?_⟩
    · intro h₂ r hr
      rw [hres] at hr
      exact i1 h₂ r hr
    · intro h₂ sid₂ hl
      rw [hA] at hl
      rw [hH]
      exact r2 h₂ sid₂ hl
    · rw [hA]
      exact r3

/-- Every reachable state of the store satisfies the invariant. -/
theorem reach_historyInv {s : ServiceState} {t : Nat} (hr : Reach s t) :
    HistoryInv s t := by
  induction hr with
  | init t0 =>
    refine ⟨?_, ?_, ?_⟩
    · intro h r hl
      simp [initialState, alookup] at hl
    · intro h sid hl
      simp [initialState, alookup] at hl
    · simp [initialState, keysOf]
  | step op t' _ hle ih =>
    have inv' := historyInv_mono ih hle
    cases op with
    | record h sid url => exact historyInv_record h sid url t' _ inv'
    | merge h pr sid notes => exact historyInv_merge h pr sid notes t' _ inv'
    | clear h => exact historyInv_clear h t' _ inv'
  | reportStep enabled api_key e o t' _ hle ih =>
    exact historyInv_report enabled api_key e o t' _ (historyInv_mono ih hle)

/-- **C5.** In every reachable state of the cooldown & history store:
immediately after `mark_pr_merged(fp, …)` the active entry for `fp` is absent;
`resolved[fp].resolved_at` is monotone non-decreasing across successive merges
of the same fingerprint; every active entry `active[fp] = sid` is backed by a
history attempt with `session_id = sid` and `status = "in_progress"`; and the
active table maps each fingerprint to at most one session id. -/
theorem c5_store_invariants (s : ServiceState) (clock : Nat) (hr : Reach s clock) :
    (∀ h pr sid notes t',
      alookup h (mark_pr_merged h pr sid notes t' s).active_sessions = none)
    ∧ (∀ h r t' pr sid notes, alookup h s.resolved_errors = some r → clock ≤ t' →
        ∃ rec', alookup h (mark_pr_merged h pr sid notes t' s).resolved_errors = some rec'
          ∧ rec'.resolved_at = t' ∧ r.resolved_at ≤ rec'.resolved_at)
    ∧ (∀ h sid, alookup h s.active_sessions = some sid →
        ∃ a ∈ (alookup h s.error_history).getD [],
          a.session_id = sid ∧ a.status = "in_progress")
    ∧ (∀ h sid sid', alookup h s.active_sessions = some sid →
        alookup h s.active_sessions = some sid' → sid = sid') := by
  obtain ⟨i1, i2, i3⟩ := reach_historyInv hr
  refine ⟨?_, ?_, i2, ?_⟩
  · intro h pr sid notes t'
    rw [(mark_pr_merged_fields h pr sid notes t' s).2.1]
    exact alookup_eraseKey_self h s.active_sessions i3
  · intro h r t' pr sid notes hl hle
    refine ⟨{ resolved_at := t', pr_url := pr, session_id := sid, notes := notes },
      ?_, rfl, ?_⟩
    · rw [(mark_pr_merged_fields h pr sid notes t' s).1, alookup_upsert_self]
    · exact (i1 h r hl).trans hle
  · intro h sid sid' h1 h2
    rw [h1] at h2
    exact Option.some.inj h2

/-- Witness for C5: a state reached by recording one attempt at time 3. -/
theorem c5_store_invariants_witness :
    (let s1 := applyHistOp (.record "h1" "sA" "https://app.devin.ai/sessions/sA") 3
       (initialState 0)
     (∀ h pr sid notes t',
        alookup h (mark_pr_merged h pr sid notes t' s1).active_sessions = none)
     ∧ (∀ h r t' pr sid notes, alookup h s1.resolved_errors = some r → 3 ≤ t' →
          ∃ rec', alookup h (mark_pr_merged h pr sid notes t' s1).resolved_errors = some rec'
            ∧ rec'.resolved_at = t' ∧ r.resolved_at ≤ rec'.resolved_at)
     ∧ (∀ h sid, alookup h s1.active_sessions = some sid →
          ∃ a ∈ (alookup h s1.error_history).getD [],
            a.session_id = sid ∧ a.status = "in_progress")
     ∧ (∀ h sid sid', alookup h s1.active_sessions = some sid →
          alookup h s1.active_sessions = some sid' → sid = sid')) := by
  exact c5_store_invariants _ 3
    (Reach.step (.record "h1" "sA" "https://app.devin.ai/sessions/sA") 3
      (Reach.init 0) (by decide))

/-- **C4, counterexample.** The claim "for any wall-clock hour `h` the router
performs at most `MAX_REQUESTS_PER_HOUR` (10) successful dispatches during `h`,
and after 10 dispatches the next admission check in the same hour is denied"
fails on the code: from a service constructed at clock 600, eleven admission
checks all lying inside wall-clock hour 1 are ALL granted, because the
`now - last_reset > 3600` stale-reset clear fires in the middle of the hour
(at clock 4201) and empties the counter map. -/
theorem c4_counterexample :
    rateGrants (initialState 600)
      [3610, 3611, 3612, 3613, 3614, 3615, 3616, 3617, 3618, 3619, 4201] = 11
    ∧ ([3610, 3611, 3612, 3613, 3614, 3615, 3616, 3617, 3618, 3619, 4201].all
        fun t => t / 3600 = 1) = true
    ∧ (alookup "1" (rateRun (initialState 600)
        [3610, 3611, 3612, 3613, 3614, 3615, 3616, 3617, 3618, 3619]).request_counts)
        = some 10
    ∧ (check_rate_limit 4201 (rateRun (initialState 600)
        [3610, 3611, 3612, 3613, 3614, 3615, 3616, 3617, 3618, 3619])).1 = true := by
  refine ⟨by decide, by decide, by decide, by decide⟩

/-- **C4, amended.** An admission check that finds the current hour's count at
`MAX_REQUESTS_PER_HOUR` is denied (leaving the state unchanged) if and only if
it does not first trigger the stale-reset clear: when more than an hour has
passed since `last_request_reset`, the whole map is cleared and the check is
granted with a fresh count of 1 — so a single wall-clock hour can admit up to
2 × `MAX_REQUESTS_PER_HOUR` dispatches. -/
theorem c4_rate_limit_amended (s : ServiceState) (now : Nat)
    (hcount : MAX_REQUESTS_PER_HOUR ≤
      (alookup (toString (now / 3600)) s.request_counts).getD 0) :
    (now ≤ s.last_request_reset + 3600 → check_rate_limit now s = (false, s))
    ∧ (s.last_request_reset + 3600 < now →
        check_rate_limit now s =
          (true, { s with request_counts := [(toString (now / 3600), 1)],
                          last_request_reset := now })) := by
  constructor
  · intro hfresh
    have hcond : ¬ (s.last_request_reset + 3600 < now) := by omega
    unfold check_rate_limit
    dsimp only
    rw [if_neg hcond, if_neg hcond, if_pos hcount]
  · intro hstale
    unfold check_rate_limit
    dsimp only
    rw [if_pos hstale, if_pos hstale]
    have hzero : ¬ (MAX_REQUESTS_PER_HOUR ≤
        (alookup (toString (now / 3600)) ([] : List (String × Nat))).getD 0) := by
      simp [alookup, MAX_REQUESTS_PER_HOUR]
    rw [if_neg hzero]
    simp [upsert, alookup]

/-- Witness for the amended C4 at a concrete saturated state. -/
theorem c4_rate_limit_amended_witness :
    (let s0 : ServiceState :=
      { request_counts := [("1", 10)], last_request_reset := 600,
        recent_error_hashes := [], resolved_errors := [], error_history := [],
        active_sessions := [] }
     (3700 ≤ s0.last_request_reset + 3600 → check_rate_limit 3700 s0 = (false, s0))
     ∧ (s0.last_request_reset + 3600 < 3700 →
         check_rate_limit 3700 s0 =
           (true, { s0 with request_counts := [(toString (3700 / 3600), 1)],
                            last_request_reset := 3700 }))) := by
  exact c4_rate_limit_amended _ 3700 (by decide)

/-- **C8, counterexample.** Fingerprint equality does not imply tuple equality:
the joined string `category:event:message:codeLocation` does not escape the
`:` separator, so `("a:b", "c")` and `("a", "b:c")` hash identically while the
`(category, event, message, codeLocation)` tuples differ. -/
theorem c8_counterexample :
    generate_error_hash { category := "a:b", event := "c", message := "m" }
      = generate_error_hash { category := "a", event := "b:c", message := "m" }
    ∧ ¬ (("a:b", "c", "m", (none : Option String))
          = ("a", "b:c", "m", (none : Option String))) := by
  constructor
  · exact congrArg sha256hex (by decide)
  · decide

/-- **C8, amended.** Equal joined strings give equal fingerprints: whenever the
`category`, `event` and `message` fields agree and the `codeLocation` fields
agree up to reading an absent location as the empty string, the fingerprints
are equal.  In particular equal tuples give equal hashes (the claim's forward
direction); the reverse direction fails by `c8_counterexample`. -/
theorem c8_fingerprint_amended (e1 e2 : ErrorContext)
    (hc : e1.category = e2.category) (he : e1.event = e2.event)
    (hm : e1.message = e2.message)
    (hl : e1.code_location.getD "" = e2.code_location.getD "") :
    generate_error_hash e1 = generate_error_hash e2 := by
  unfold generate_error_hash hashInputOf
  rw [hc, he, hm, hl]

/-- Witness for the amended C8: an absent code location and an empty one. -/
theorem c8_fingerprint_amended_witness :
    generate_error_hash
      { category := "agent_error", event := "timeout", message := "request took 30s",
        code_location := none }
    = generate_error_hash
      { category := "agent_error", event := "timeout", message := "request took 30s",
        code_location := some "" } := by
  exact c8_fingerprint_amended _ _ rfl rfl rfl (by decide)

/-- **C7.** If no Anthropic API key is configured, or the classifier HTTP call
fails or returns a non-200 status, or the returned JSON cannot be parsed, the
AI duplicate classifier returns a `RootCauseAnalysis` with
`is_duplicate_of_active_work = false` and `confidence = 0`, and
`should_send_for_repair` therefore answers `true` (fail-open toward dispatch). -/
theorem c7_analyzer_fail_open (apiKey : Option String) (s : ServiceState) (now : Nat)
    (prs : List ActiveWork) (outcome : AnthropicOutcome)
    (parseJson : String → Option JValue)
    (hfail : apiKey = none
      ∨ (∃ m, outcome = .exc m)
      ∨ (∃ st txt, outcome = .resp st txt ∧ st ≠ 200)
      ∨ (∃ txt, outcome = .resp 200 txt ∧ parseJson (extractFenced txt) = none)) :
    (analyze_error apiKey s now prs outcome parseJson).is_duplicate_of_active_work = false
    ∧ (analyze_error apiKey s now prs outcome parseJson).confidence = 0
    ∧ (should_send_for_repair apiKey s now prs outcome parseJson).1 = true := by
  rcases hfail with h | ⟨m, h⟩ | ⟨st, txt, h, hst⟩ | ⟨txt, h, hp⟩
  · subst h
    exact ⟨rfl, rfl, rfl⟩
  · subst h
    cases apiKey with
    | none => exact ⟨rfl, rfl, rfl⟩
    | some k => exact ⟨rfl, rfl, rfl⟩
  · subst h
    cases apiKey with
    | none => exact ⟨rfl, rfl, rfl⟩
    | some k =>
      unfold should_send_for_repair analyze_error
      dsimp only
      rw [if_pos hst]
      exact ⟨rfl, rfl, rfl⟩
  · subst h
    cases apiKey with
    | none => exact ⟨rfl, rfl, rfl⟩
    | some k =>
      unfold should_send_for_repair analyze_error parse_analysis_response
      dsimp only
      rw [if_neg (fun hc : (200 : Nat) ≠ 200 => hc rfl), hp]
      exact ⟨rfl, rfl, rfl⟩

/-- Witness for C7: no API key configured. -/
theorem c7_analyzer_fail_open_witness :
    (analyze_error none (initialState 0) 0 [] (.exc "boom")
        (fun _ => none)).is_duplicate_of_active_work = false
    ∧ (analyze_error none (initialState 0) 0 [] (.exc "boom")
        (fun _ => none)).confidence = 0
    ∧ (should_send_for_repair none (initialState 0) 0 [] (.exc "boom")
        (fun _ => none)).1 = true := by
  exact c7_analyzer_fail_open none (initialState 0) 0 [] (.exc "boom")
    (fun _ => none) (Or.inl rfl)

theorem alookup_mem {α : Type} (k : String) (v : α) (l : List (String × α))
    (h : alookup k l = some v) : (k, v) ∈ l := by
  induction l with
  | nil => simp [alookup] at h
  | cons p t ih =>
    obtain ⟨a, b⟩ := p
    by_cases ha : a = k
    · subst ha
      simp [alookup] at h
      subst h
      exact List.mem_cons_self _ _
    · simp [alookup, ha] at h
      exact List.mem_cons_of_mem _ (ih h)

theorem amember_of_mem {α : Type} (k : String) (v : α) (l : List (String × α))
    (h : (k, v) ∈ l) : amember k l = true := by
  unfold amember
  rw [List.any_eq_true]
  exact ⟨(k, v), h, by simp⟩

/-- `_record_attempt` does not touch the recent-hash table. -/
theorem record_attempt_recent (h sid url : String) (now : Nat) (s : ServiceState) :
    (record_attempt h sid url now s).recent_error_hashes = s.recent_error_hashes := rfl

/-- When a duplicate is already recorded inside the window, `_check_duplicate`
answers `true`. -/
theorem check_duplicate_blocked (h : String) (t0 now : Nat) (s : ServiceState)
    (hl : alookup h s.recent_error_hashes = some t0)
    (hwin : now < t0 + DEDUPLICATION_WINDOW_SECONDS) :
    (check_duplicate h now s).1 = true := by
  have hmem : amember h (s.recent_error_hashes.filter
      fun p => now < p.2 + DEDUPLICATION_WINDOW_SECONDS) = true := by
    refine amember_of_mem h t0 _ ?_
    rw [List.mem_filter]
    exact ⟨alookup_mem h t0 _ hl, by simpa using hwin⟩
  unfold check_duplicate
  dsimp only
  rw [if_pos hmem]

/-- A dispatching report call stamps the fingerprint into the recent-hash table. -/
theorem report_dispatch_recent (enabled : Bool) (api_key : Option String)
    (e : ErrorContext) (o : ApiOutcome) (now : Nat) (s : ServiceState)
    (hd : (report_error_with_cooldown_and_history enabled api_key e o now s).dispatched.isSome
      = true) :
    alookup (generate_error_hash e)
      (report_error_with_cooldown_and_history enabled api_key e o now s).state.recent_error_hashes
      = some now := by
  revert hd
  unfold report_error_with_cooldown_and_history
  dsimp only
  split
  · intro hd; exact absurd hd (by simp)
  · split
    · intro hd; exact absurd hd (by simp)
    · split
      · intro hd; exact absurd hd (by simp)
      · split
        · intro hd; exact absurd hd (by simp)
        · split
          · intro hd; exact absurd hd (by simp)
          · next s1 heq =>
            have hs1 : s1.recent_error_hashes =
                upsert (generate_error_hash e) now
                  (s.recent_error_hashes.filter
                    fun p => now < p.2 + DEDUPLICATION_WINDOW_SECONDS) := by
              unfold check_duplicate at heq
              dsimp only at heq
              split at heq
              · exact absurd (congrArg Prod.fst heq) (by simp)
              · have := congrArg Prod.snd heq
                dsimp at this
                rw [← this]
            split
            · next s2 heq2 =>
              intro hd; exact absurd hd (by simp)
            · next s2 heq2 =>
              have hs2 : s2.recent_error_hashes = s1.recent_error_hashes := by
                have h' : (check_rate_limit now s1).2 = s2 := congrArg Prod.snd heq2
                rw [← h']
                exact (check_rate_limit_snd_fields now s1).2.2.2
              split
              · intro _
                rw [hs2, hs1, alookup_upsert_self]
              · split
                · intro _
                  rw [hs2, hs1, alookup_upsert_self]
                · intro _
                  rw [record_attempt_recent, hs2, hs1, alookup_upsert_self]

/-- A report call whose fingerprint is already in the recent-hash table (inside
the window) performs no dispatch. -/
theorem report_blocked_by_recent (enabled : Bool) (api_key : Option String)
    (e : ErrorContext) (o : ApiOutcome) (t0 now : Nat) (s : ServiceState)
    (hl : alookup (generate_error_hash e) s.recent_error_hashes = some t0)
    (hwin : now < t0 + DEDUPLICATION_WINDOW_SECONDS) :
    (report_error_with_cooldown_and_history enabled api_key e o now s).dispatched = none := by
  unfold report_error_with_cooldown_and_history
  dsimp only
  split
  · rfl
  · split
    · rfl
    · split
      · rfl
      · split
        · rfl
        · split
          · rfl
          · next s1 heq =>
            exfalso
            have := check_duplicate_blocked (generate_error_hash e) t0 now s hl hwin
            rw [heq] at this
            exact absurd this (by simp)

/-- The fingerprint of a routed report is independent of context enrichment. -/
theorem routeHash_enriched (e : ErrorReport) (analysis : RootCauseAnalysis) :
    generate_error_hash (toErrorContext (enrichedReport e analysis)) =
      generate_error_hash (toErrorContext e) := rfl

/-- A dispatching route call stamps the fingerprint into the recent-hash table. -/
theorem route_dispatch_recent (cfg : ErrorRouterConfig) (e : ErrorReport)
    (ai : Option (Bool × RootCauseAnalysis)) (enabled : Bool) (api_key : Option String)
    (o : ApiOutcome) (now : Nat) (s : ServiceState)
    (hd : (route_error cfg e ai enabled api_key o now s).dispatched.isSome = true) :
    alookup (generate_error_hash (toErrorContext e))
      (route_error cfg e ai enabled api_key o now s).state.recent_error_hashes
      = some now := by
  revert hd
  unfold route_error route_to_devin
  dsimp only
  by_cases h1 : (!meets_min_severity cfg (if e.severity = "" then "ERROR" else e.severity))
      = true
  · rw [if_pos h1]
    intro hd
    exact absurd hd (by simp)
  · rw [if_neg h1]
    by_cases h2 : (!cfg.enable_devin) = true
    · rw [if_pos h2]
      intro hd
      exact absurd hd (by simp)
    · rw [if_neg h2]
      by_cases h3 : cfg.enable_ai_analysis = true
      · rw [if_pos h3]
        cases ai with
        | none =>
          dsimp only
          intro hd
          exact report_dispatch_recent enabled api_key (toErrorContext e) o now s hd
        | some p =>
          obtain ⟨b, analysis⟩ := p
          cases b with
          | false =>
            dsimp only
            intro hd
            exact absurd hd (by simp)
          | true =>
            dsimp only
            intro hd
            have hrep := report_dispatch_recent enabled api_key
              (toErrorContext (enrichedReport e analysis)) o now s hd
            rw [routeHash_enriched] at hrep
            exact hrep
      · rw [if_neg h3]
        dsimp only
        intro hd
        exact report_dispatch_recent enabled api_key (toErrorContext e) o now s hd

/-- A route call whose fingerprint is already in the recent-hash table (inside
the window) performs no dispatch. -/
theorem route_blocked_by_recent (cfg : ErrorRouterConfig) (e : ErrorReport)
    (ai : Option (Bool × RootCauseAnalysis)) (enabled : Bool) (api_key : Option String)
    (o : ApiOutcome) (t0 now : Nat) (s : ServiceState)
    (hl : alookup (generate_error_hash (toErrorContext e)) s.recent_error_hashes = some t0)
    (hwin : now < t0 + DEDUPLICATION_WINDOW_SECONDS) :
    (route_error cfg e ai enabled api_key o now s).dispatched = none := by
  unfold route_error route_to_devin
  dsimp only
  by_cases h1 : (!meets_min_severity cfg (if e.severity = "" then "ERROR" else e.severity))
      = true
  · rw [if_pos h1]
  · rw [if_neg h1]
    by_cases h2 : (!cfg.enable_devin) = true
    · rw [if_pos h2]
    · rw [if_neg h2]
      by_cases h3 : cfg.enable_ai_analysis = true
      · rw [if_pos h3]
        cases ai with
        | none =>
          exact report_blocked_by_recent enabled api_key (toErrorContext e) o t0 now s
            hl hwin
        | some p =>
          obtain ⟨b, analysis⟩ := p
          cases b with
          | false => rfl
          | true =>
            exact report_blocked_by_recent enabled api_key
              (toErrorContext (enrichedReport e analysis)) o t0 now s
              (by rw [routeHash_enriched]; exact hl) hwin
      · rw [if_neg h3]
        exact report_blocked_by_recent enabled api_key (toErrorContext e) o t0 now s
          hl hwin

/-- **C3.** Two successive `route_error` calls with the same error report within
`DEDUP_WINDOW` (1 hour) and no intervening store mutation produce at most one
outbound dispatch, regardless of whether the first dispatch succeeded or
failed (and whatever the configurations, AI verdicts, and API outcomes are). -/
theorem c3_dedup_single_dispatch (cfg1 cfg2 : ErrorRouterConfig) (e : ErrorReport)
    (ai1 ai2 : Option (Bool × RootCauseAnalysis)) (en1 en2 : Bool)
    (k1 k2 : Option String) (o1 o2 : ApiOutcome) (t1 t2 : Nat) (s0 : ServiceState)
    (_hseq : t1 ≤ t2) (hwin : t2 < t1 + DEDUPLICATION_WINDOW_SECONDS) :
    ¬ ((route_error cfg1 e ai1 en1 k1 o1 t1 s0).dispatched.isSome = true
      ∧ (route_error cfg2 e ai2 en2 k2 o2 t2
          (route_error cfg1 e ai1 en1 k1 o1 t1 s0).state).dispatched.isSome = true) := by
  rintro ⟨h1, h2⟩
  have hrec := route_dispatch_recent cfg1 e ai1 en1 k1 o1 t1 s0 h1
  have hnone := route_blocked_by_recent cfg2 e ai2 en2 k2 o2 t1 t2
    (route_error cfg1 e ai1 en1 k1 o1 t1 s0).state hrec hwin
  rw [hnone] at h2
  exact absurd h2 (by simp)

/-- Witness for C3: the same error routed twice, 10 seconds apart. -/
theorem c3_dedup_single_dispatch_witness :
    ¬ ((route_error { enable_ai_analysis := false }
          { category := "agent_error", event := "timeout", message := "request took 30s" }
          none true (some "k") (.resp 200 "sA" none) 0 (initialState 0)).dispatched.isSome
            = true
      ∧ (route_error { enable_ai_analysis := false }
          { category := "agent_error", event := "timeout", message := "request took 30s" }
          none true (some "k") (.resp 200 "sB" none) 10
          (route_error { enable_ai_analysis := false }
            { category := "agent_error", event := "timeout", message := "request took 30s" }
            none true (some "k") (.resp 200 "sA" none) 0
            (initialState 0)).state).dispatched.isSome = true) := by
  exact c3_dedup_single_dispatch _ _ _ none none true true (some "k") (some "k")
    (.resp 200 "sA" none) (.resp 200 "sB" none) 0 10 (initialState 0)
    (by decide) (by decide)

/-- **C1, counterexample.** The claim "the AI duplicate check runs last among
the gates, so every call that reaches it has already passed the cooldown,
active-session, dedup, and rate-limit gates" fails on the code: from a
rate-saturated state (ten grants in hour 1, no stale reset), a `route_error`
call evaluates the AI check third — before the stateful gates — and is then
denied by the rate limiter, so the AI stage was reached although the
rate-limit gate had not been passed. -/
theorem c1_counterexample :
    (let out := route_error { }
      { category := "agent_error", event := "timeout", message := "request took 30s" }
      (some (true, noKeyAnalysis)) true (some "k") (.resp 200 "sX" none) 3620
      (rateRun (initialState 600)
        [3610, 3611, 3612, 3613, 3614, 3615, 3616, 3617, 3618, 3619])
     out.trace = [.severityGate, .enableDevin, .aiCheck, .serviceEnabled, .apiKeyGate,
                  .cooldown, .activeSession, .dedup, .rateLimit]
     ∧ out.result.skipped_reason = some "Rate limit exceeded"
     ∧ out.dispatched = none
     ∧ Gate.aiCheck ∈ out.trace
     ∧ out.trace.indexOf Gate.aiCheck < out.trace.indexOf Gate.rateLimit) := by
  decide

/-- The trace of a report call always follows the inner gate order
service-enabled → API-key → cooldown → active-session → dedup → rate-limit →
dispatch, stopping at the first gate that ends the call. -/
theorem report_trace_shape (enabled : Bool) (api_key : Option String)
    (e : ErrorContext) (o : ApiOutcome) (now : Nat) (s : ServiceState) :
    ∃ rest, (report_error_with_cooldown_and_history enabled api_key e o now s).trace
      ++ rest = [Gate.serviceEnabled, Gate.apiKeyGate, Gate.cooldown,
                 Gate.activeSession, Gate.dedup, Gate.rateLimit, Gate.dispatch] := by
  unfold report_error_with_cooldown_and_history
  dsimp only
  repeat' split
  all_goals first
    | exact ⟨[Gate.apiKeyGate, Gate.cooldown, Gate.activeSession, Gate.dedup,
              Gate.rateLimit, Gate.dispatch], rfl⟩
    | exact ⟨[Gate.cooldown, Gate.activeSession, Gate.dedup, Gate.rateLimit,
              Gate.dispatch], rfl⟩
    | exact ⟨[Gate.activeSession, Gate.dedup, Gate.rateLimit, Gate.dispatch], rfl⟩
    | exact ⟨[Gate.dedup, Gate.rateLimit, Gate.dispatch], rfl⟩
    | exact ⟨[Gate.rateLimit, Gate.dispatch], rfl⟩
    | exact ⟨[Gate.dispatch], rfl⟩
    | exact ⟨[], rfl⟩

/-- **C1, amended.** The gates of `route_error` are evaluated in the fixed order
severity → feature-disabled → AI duplicate check (when AI analysis is enabled)
→ service-enabled → API-key → cooldown → active-session → dedup → rate-limit →
dispatch: every trace is an initial segment of that order.  The AI duplicate
check is therefore third, before the cooldown/active-session/dedup/rate-limit
gates, not last. -/
theorem c1_gate_order_amended (cfg : ErrorRouterConfig) (e : ErrorReport)
    (ai : Option (Bool × RootCauseAnalysis)) (enabled : Bool)
    (api_key : Option String) (o : ApiOutcome) (now : Nat) (s : ServiceState) :
    ∃ rest, (route_error cfg e ai enabled api_key o now s).trace ++ rest =
      (if cfg.enable_ai_analysis then gateOrderAI else gateOrderNoAI) := by
  by_cases h3 : cfg.enable_ai_analysis = true
  · rw [if_pos h3]
    unfold route_error route_to_devin
    dsimp only
    by_cases h1 : (!meets_min_severity cfg
        (if e.severity = "" then "ERROR" else e.severity)) = true
    · rw [if_pos h1]
      exact ⟨[Gate.enableDevin, Gate.aiCheck, Gate.serviceEnabled, Gate.apiKeyGate,
              Gate.cooldown, Gate.activeSession, Gate.dedup, Gate.rateLimit,
              Gate.dispatch], rfl⟩
    · rw [if_neg h1]
      by_cases h2 : (!cfg.enable_devin) = true
      · rw [if_pos h2]
        exact ⟨[Gate.aiCheck, Gate.serviceEnabled, Gate.apiKeyGate, Gate.cooldown,
                Gate.activeSession, Gate.dedup, Gate.rateLimit, Gate.dispatch], rfl⟩
      · rw [if_neg h2, if_pos h3]
        cases ai with
        | none =>
          dsimp only
          obtain ⟨rest, hre⟩ := report_trace_shape enabled api_key (toErrorContext e)
            o now s
          exact ⟨rest, by rw [List.append_assoc, hre]; rfl⟩
        | some p =>
          obtain ⟨b, analysis⟩ := p
          cases b with
          | false =>
            dsimp only
            exact ⟨[Gate.serviceEnabled, Gate.apiKeyGate, Gate.cooldown,
                    Gate.activeSession, Gate.dedup, Gate.rateLimit, Gate.dispatch], rfl⟩
          | true =>
            dsimp only
            obtain ⟨rest, hre⟩ := report_trace_shape enabled api_key
              (toErrorContext (enrichedReport e analysis)) o now s
            exact ⟨rest, by rw [List.append_assoc, hre]; rfl⟩
  · rw [if_neg h3]
    unfold route_error route_to_devin
    dsimp only
    by_cases h1 : (!meets_min_severity cfg
        (if e.severity = "" then "ERROR" else e.severity)) = true
    · rw [if_pos h1]
      exact ⟨[Gate.enableDevin, Gate.serviceEnabled, Gate.apiKeyGate, Gate.cooldown,
              Gate.activeSession, Gate.dedup, Gate.rateLimit, Gate.dispatch], rfl⟩
    · rw [if_neg h1]
      by_cases h2 : (!cfg.enable_devin) = true
      · rw [if_pos h2]
        exact ⟨[Gate.serviceEnabled, Gate.apiKeyGate, Gate.cooldown,
                Gate.activeSession, Gate.dedup, Gate.rateLimit, Gate.dispatch], rfl⟩
      · rw [if_neg h2, if_neg h3]
        dsimp only
        obtain ⟨rest, hre⟩ := report_trace_shape enabled api_key (toErrorContext e)
          o now s
        exact ⟨rest, by rw [List.append_assoc, hre]; rfl⟩

/-- The active-session branch of a report call: the cooldown check answers
false (no resolved record, or one whose 300 s window has elapsed) and an
active session exists — the exact result, with the state untouched. -/
theorem report_linked (e : ErrorContext) (k : String) (o : ApiOutcome) (now : Nat)
    (s : ServiceState) (sid : String)
    (hcool : (check_pr_merge_cooldown (generate_error_hash e) now s).1 = false)
    (hact : alookup (generate_error_hash e) s.active_sessions = some sid) :
    report_error_with_cooldown_and_history true (some k) e o now s =
      ⟨{ success := true
         devin_session_id := some sid
         devin_session_url := some ("https://app.devin.ai/sessions/" ++ sid)
         skipped_reason := some ("Active session " ++ sid
           ++ " already working on this error") },
       s, none,
       [.serviceEnabled, .apiKeyGate, .cooldown, .activeSession]⟩ := by
  have hc : check_pr_merge_cooldown (generate_error_hash e) now s =
      (false, (check_pr_merge_cooldown (generate_error_hash e) now s).2.1,
       (check_pr_merge_cooldown (generate_error_hash e) now s).2.2) := by
    rw [← hcool]
  have ha : check_active_session (generate_error_hash e) s = some sid := by
    unfold check_active_session
    exact hact
  unfold report_error_with_cooldown_and_history
  dsimp only
  rw [hc, ha]
  rfl

/-- **C6, amended.** When the fingerprint is not in cooldown (the cooldown
check answers false: no resolved record, or a record whose 300 s window has
elapsed) but has an active session `sid`, the route call reaches the
LINKED(existing) terminal: success, the existing session id, its session URL,
no dispatch, no state change — but `linked_to_existing` on the returned
`RoutingResult` is `false` (the router hardcodes it on this path; only the
AI-duplicate branch sets it true). -/
theorem c6_linked_existing_amended (cfg : ErrorRouterConfig) (e : ErrorReport)
    (ai : Option (Bool × RootCauseAnalysis)) (k : String) (o : ApiOutcome)
    (now : Nat) (s : ServiceState) (sid : String)
    (hsev : meets_min_severity cfg (if e.severity = "" then "ERROR" else e.severity)
      = true)
    (hdev : cfg.enable_devin = true)
    (hai : cfg.enable_ai_analysis = false ∨ ai = none ∨ ∃ a, ai = some (true, a))
    (hcool : (check_pr_merge_cooldown (generate_error_hash (toErrorContext e))
      now s).1 = false)
    (hact : alookup (generate_error_hash (toErrorContext e)) s.active_sessions
      = some sid) :
    (route_error cfg e ai true (some k) o now s).result.success = true
    ∧ (route_error cfg e ai true (some k) o now s).result.devin_session_id = some sid
    ∧ (route_error cfg e ai true (some k) o now s).result.devin_session_url =
        some ("https://app.devin.ai/sessions/" ++ sid)
    ∧ (route_error cfg e ai true (some k) o now s).result.linked_to_existing = false
    ∧ (route_error cfg e ai true (some k) o now s).dispatched = none
    ∧ (route_error cfg e ai true (some k) o now s).state = s := by
  have h1 : ¬ ((!meets_min_severity cfg
      (if e.severity = "" then "ERROR" else e.severity)) = true) := by
    rw [hsev]
    simp
  have h2 : ¬ ((!cfg.enable_devin) = true) := by
    rw [hdev]
    simp
  unfold route_error route_to_devin
  dsimp only
  rw [if_neg h1, if_neg h2]
  rcases hai with hai | hai | ⟨a, hai⟩
  · rw [if_neg (by rw [hai]; simp : ¬ (cfg.enable_ai_analysis = true))]
    rw [report_linked (toErrorContext e) k o now s sid hcool hact]
    exact ⟨rfl, rfl, rfl, rfl, rfl, rfl⟩
  · subst hai
    by_cases h3 : cfg.enable_ai_analysis = true
    · rw [if_pos h3]
      dsimp only
      rw [report_linked (toErrorContext e) k o now s sid hcool hact]
      exact ⟨rfl, rfl, rfl, rfl, rfl, rfl⟩
    · rw [if_neg h3]
      rw [report_linked (toErrorContext e) k o now s sid hcool hact]
      exact ⟨rfl, rfl, rfl, rfl, rfl, rfl⟩
  · subst hai
    by_cases h3 : cfg.enable_ai_analysis = true
    · rw [if_pos h3]
      dsimp only
      rw [report_linked (toErrorContext (enrichedReport e a)) k o now s sid
        (by rw [routeHash_enriched]; exact hcool)
        (by rw [routeHash_enriched]; exact hact)]
      exact ⟨rfl, rfl, rfl, rfl, rfl, rfl⟩
    · rw [if_neg h3]
      rw [report_linked (toErrorContext e) k o now s sid hcool hact]
      exact ⟨rfl, rfl, rfl, rfl, rfl, rfl⟩

/-- Witness for the amended C6 at a concrete state whose fingerprint carries an
EXPIRED cooldown record (resolved at 50, now 400 ≥ 50 + 300) together with an
active session. -/
theorem c6_linked_existing_amended_witness :
    (let e0 : ErrorReport :=
      { category := "agent_error", event := "timeout", message := "request took 30s" }
     let s6 : ServiceState :=
      { request_counts := [], last_request_reset := 0, recent_error_hashes := [],
        resolved_errors := [(generate_error_hash (toErrorContext e0),
          { resolved_at := 50, pr_url := "https://pr/1", session_id := "sOld",
            notes := none })],
        error_history := [],
        active_sessions := [(generate_error_hash (toErrorContext e0), "sess-1")] }
     (route_error { enable_ai_analysis := false } e0 none true (some "k")
        (.resp 200 "sX" none) 400 s6).result.success = true
     ∧ (route_error { enable_ai_analysis := false } e0 none true (some "k")
        (.resp 200 "sX" none) 400 s6).result.devin_session_id = some "sess-1"
     ∧ (route_error { enable_ai_analysis := false } e0 none true (some "k")
        (.resp 200 "sX" none) 400 s6).result.devin_session_url =
          some ("https://app.devin.ai/sessions/" ++ "sess-1")
     ∧ (route_error { enable_ai_analysis := false } e0 none true (some "k")
        (.resp 200 "sX" none) 400 s6).result.linked_to_existing = false
     ∧ (route_error { enable_ai_analysis := false } e0 none true (some "k")
        (.resp 200 "sX" none) 400 s6).dispatched = none
     ∧ (route_error { enable_ai_analysis := false } e0 none true (some "k")
        (.resp 200 "sX" none) 400 s6).state = s6) := by
  exact c6_linked_existing_amended { enable_ai_analysis := false } _ none "k"
    (.resp 200 "sX" none) 400 _ "sess-1" (by decide) rfl (Or.inl rfl)
    (by simp [check_pr_merge_cooldown, alookup, PR_MERGE_COOLDOWN_SECONDS])
    (by simp [alookup])

set_option maxRecDepth 100000 in
/-- **C6, counterexample.** The claim says the LINKED(existing) result carries
`linkedToExisting = true`; the code returns it with `linked_to_existing =
false`, because `_route_to_devin` hardcodes `linked_to_existing=False` on every
path through it. -/
theorem c6_counterexample :
    (let e0 : ErrorReport :=
      { category := "agent_error", event := "timeout", message := "request took 30s" }
     let s6 : ServiceState :=
      { request_counts := [], last_request_reset := 0, recent_error_hashes := [],
        resolved_errors := [], error_history := [],
        active_sessions := [(generate_error_hash (toErrorContext e0), "sess-1")] }
     let out := route_error { enable_ai_analysis := false } e0 none true (some "k")
       (.resp 200 "sX" none) 5 s6
     out.result.success = true
     ∧ out.result.devin_session_id = some "sess-1"
     ∧ out.dispatched = none
     ∧ ¬ (out.result.linked_to_existing = true)) := by
  decide

/-- Witness for C10 at a concrete state: a history whose only attempt belongs to a
different session, an active session for the hash, and a merge at time 7. -/
theorem c10_mark_pr_merged_total_witness :
    (let a0 : StoredAttempt :=
      { session_id := "sOld", session_url := "u", pr_url := none,
        status := "in_progress", created_at := 1, resolved_at := none,
        resolution_notes := none, occurrence_count := 1 }
     let s0 : ServiceState :=
      { request_counts := [], last_request_reset := 0, recent_error_hashes := [],
        resolved_errors := [], error_history := [("h1", [a0])],
        active_sessions := [("h1", "sNew")] }
     alookup "h1" (mark_pr_merged "h1" "https://pr/7" "sX" none 7 s0).resolved_errors =
        some { resolved_at := 7, pr_url := "https://pr/7", session_id := "sX",
               notes := none }
      ∧ alookup "h1" (mark_pr_merged "h1" "https://pr/7" "sX" none 7 s0).active_sessions =
          none
      ∧ (∀ t', t' < 7 + PR_MERGE_COOLDOWN_SECONDS →
          check_pr_merge_cooldown "h1" t' (mark_pr_merged "h1" "https://pr/7" "sX" none 7 s0) =
            (true, some (7 + PR_MERGE_COOLDOWN_SECONDS), some "https://pr/7"))
      ∧ ((∀ a ∈ (alookup "h1" s0.error_history).getD [], a.session_id ≠ "sX") →
          (mark_pr_merged "h1" "https://pr/7" "sX" none 7 s0).error_history =
            s0.error_history)) := by
  exact c10_mark_pr_merged_total _ "h1" "https://pr/7" "sX" none 7 (by decide)

end OpenDevin
